import Mathlib

/-!
Shallow embedding of the Potlock `DonorPayouts` NEAR contract
(`src/src/lib.rs`) and proofs about its reward-distribution saga.

Modelling conventions:
* `u128`/`u64` quantities (token amounts, yoctoNEAR deposits, timestamps)
  are modelled as `Nat`; the contract's additions never wrap in the claims
  under study, and NEAR contracts abort on overflow.
* `AccountId` is a `String`.
* `near_sdk::collections::UnorderedMap` is modelled as an association list
  in insertion order (the map's iteration order: inserts of new keys append,
  inserts of existing keys update in place, and nothing is ever removed).
* `near_sdk::collections::Vector` is a `List`.
* A Rust `panic!`/failed `assert!` is `Except.error msg`: on NEAR a panic
  aborts the call and reverts every state write of the invocation.
* An issued cross-contract call is an `ExternalCall` value returned next to
  the (unchanged) state; promise results re-enter through the callback
  functions, which receive the `promise_results_count` and the result as
  explicit arguments.
-/

abbrev AccountId := String

inductive DonationType where
  | Pot (pot_id : AccountId)
  | Campaign (campaign_id : String)
  | Direct
  | Project (project_id : String)
deriving DecidableEq

inductive RewardType where
  | Token
  | NFT (channel_id : String) (token_id : String)
deriving DecidableEq

structure AirdropRecord where
  recipient : AccountId
  amount : Nat
  timestamp : Nat
  paid : Bool
  reward_type : RewardType
  donation_type : DonationType
deriving DecidableEq

structure Donor where
  wallet_id : AccountId
  donation_amount : Nat
  airdrop_amount : Nat
  paid : Bool
  reward_types : List RewardType
  donation_types : List DonationType
deriving DecidableEq

structure DonorPayouts where
  donors : List (AccountId × Donor)
  airdrop_records : List AirdropRecord
  total_distributed : Nat
  admin : AccountId
deriving DecidableEq

structure PaginatedAirdropRecords where
  records : List AirdropRecord
  has_more : Bool
deriving DecidableEq

structure PaginatedDonors where
  donors : List Donor
  has_more : Bool
deriving DecidableEq

/-- The cross-contract calls the contract can issue (the orchestrator's
gateway requests, each together with the callback it chains). -/
inductive ExternalCall where
  | nftMint (receiver : AccountId) (channel_id : String) (deposit : Nat)
  | storageBalanceOf (account : AccountId)
  | storageDeposit (account : AccountId) (deposit : Nat)
  | ftTransfer (receiver : AccountId) (amount : Nat)
deriving DecidableEq

/-- `near_sdk::PromiseResult` for a callback whose successful payload is
parsed as an `alpha`. -/
inductive PromiseOutcome (alpha : Type) where
  | successful (value : alpha)
  | failed
deriving DecidableEq

/-- The payload of the `storage_balance_of` result: either bytes that fail
JSON parsing, or a parsed `serde_json::Value` abstracted to the only
property the contract inspects, whether it is `Value::Null`. -/
inductive StorageCheckPayload where
  | malformed
  | value (isNull : Bool)
deriving DecidableEq

/-- Association-list lookup, `UnorderedMap::get`. -/
def mapGet (m : List (AccountId × Donor)) (k : AccountId) : Option Donor :=
  match m with
  | [] => none
  | (k1, v) :: rest => if k1 = k then some v else mapGet rest k

/-- Association-list upsert, `UnorderedMap::insert`: an existing key keeps
its position, a new key is appended. -/
def mapInsert (m : List (AccountId × Donor)) (k : AccountId) (v : Donor) :
    List (AccountId × Donor) :=
  match m with
  | [] => [(k, v)]
  | (k1, v1) :: rest => if k1 = k then (k, v) :: rest else (k1, v1) :: mapInsert rest k v

def isAccountAlnum (c : Char) : Bool := c.isLower || c.isDigit

def isAccountSep (c : Char) : Bool := c == '-' || c == '_' || c == '.'

def noAdjacentSeps : List Char → Bool
  | [] => true
  | [_] => true
  | c1 :: c2 :: rest => !(isAccountSep c1 && isAccountSep c2) && noAdjacentSeps (c2 :: rest)

/-- `near_sdk::env::is_valid_account_id`: 2–64 bytes matching
`^(([a-z\d]+[-_])*[a-z\d]+\.)*([a-z\d]+[-_])*[a-z\d]+$`, stated as: every
character lowercase alphanumeric or a separator, alphanumeric at both ends,
no two adjacent separators. -/
def is_valid_account_id (id : String) : Bool :=
  decide (2 ≤ id.utf8ByteSize) && decide (id.utf8ByteSize ≤ 64) &&
  id.toList.all (fun c => isAccountAlnum c || isAccountSep c) &&
  (match id.toList.head? with | some c => isAccountAlnum c | none => false) &&
  (match id.toList.getLast? with | some c => isAccountAlnum c | none => false) &&
  noAdjacentSeps id.toList

/-- The per-variant validation `match` shared by `log_airdrop`,
`record_donation` and `select_nft_reward`. -/
def checkDonationType (dt : DonationType) : Except String Unit :=
  match dt with
  | .Campaign campaign_id =>
      if campaign_id.utf8ByteSize ≤ 64 then .ok ()
      else .error "Campaign ID must be 64 characters or less"
  | .Project project_id =>
      if project_id.isEmpty then .error "Project ID must not be empty" else .ok ()
  | .Pot pot_id =>
      if is_valid_account_id pot_id then .ok () else .error "Invalid pot_id"
  | .Direct => .ok ()

/-- The `Donor` default built with `unwrap_or` when the key is absent. -/
def defaultDonor (id : AccountId) : Donor :=
  { wallet_id := id, donation_amount := 0, airdrop_amount := 0, paid := false,
    reward_types := [], donation_types := [] }

/-- The donation-type / reward-type dedup-push pipeline shared by
`log_airdrop` and `select_nft_reward`. -/
def selectDonorUpdate (d : Donor) (dt : DonationType) (rt : RewardType) : Donor :=
  let d1 := if dt ∈ d.donation_types then d
            else { d with donation_types := d.donation_types ++ [dt] }
  if rt ∈ d1.reward_types then d1
  else { d1 with reward_types := d1.reward_types ++ [rt] }

/-- The donor mutation of `log_airdrop`: add the airdropped amount and the
attached deposit, then dedup-push the donation type and reward type. -/
def airdropDonorUpdate (base : Donor) (amount attached : Nat)
    (dt : DonationType) (rt : RewardType) : Donor :=
  selectDonorUpdate
    { base with airdrop_amount := base.airdrop_amount + amount,
                donation_amount := base.donation_amount + attached }
    dt rt

/-- `DonorPayouts::log_airdrop`.  `pred` is `env::predecessor_account_id()`,
`attached` is `env::attached_deposit()` in yoctoNEAR, `ts` is
`env::block_timestamp()`. -/
def log_airdrop (s : DonorPayouts) (pred : AccountId) (attached ts : Nat)
    (recipient : AccountId) (channel_id : String) (dt : DonationType)
    (amount : Nat) : Except String DonorPayouts :=
  if pred = s.admin then
    match checkDonationType dt with
    | .error e => .error e
    | .ok _ =>
      let reward_type := if channel_id.isEmpty then RewardType.Token
                         else RewardType.NFT channel_id ""
      let record : AirdropRecord :=
        { recipient := recipient, amount := amount, timestamp := ts, paid := false,
          reward_type := reward_type, donation_type := dt }
      let donor := airdropDonorUpdate ((mapGet s.donors recipient).getD (defaultDonor recipient))
                     amount attached dt reward_type
      .ok { s with donors := mapInsert s.donors recipient donor,
                   airdrop_records := s.airdrop_records ++ [record],
                   total_distributed := s.total_distributed + amount }
  else .error "Only admin can call this function"

/-- `DonorPayouts::record_donation`. -/
def record_donation (s : DonorPayouts) (pred : AccountId) (attached : Nat)
    (dt : DonationType) : Except String DonorPayouts :=
  if attached = 0 then .error "Attached deposit must be greater than 0"
  else
    match checkDonationType dt with
    | .error e => .error e
    | .ok _ =>
      let base := (mapGet s.donors pred).getD (defaultDonor pred)
      let d1 := { base with donation_amount := base.donation_amount + attached }
      let donor := if dt ∈ d1.donation_types then d1
                   else { d1 with donation_types := d1.donation_types ++ [dt] }
      .ok { s with donors := mapInsert s.donors pred donor }

/-- `iter().find_map(...)` over the donor's reward types: the channel of the
first NFT entry. -/
def firstNftChannel : List RewardType → Option String
  | [] => none
  | .NFT c _ :: _ => some c
  | .Token :: rest => firstNftChannel rest

/-- `DonorPayouts::send_nft_reward`: the issuance-flow entry point.  On
success it issues the `nft_mint` call (chained to `on_nft_mint_callback`)
and leaves the state untouched. -/
def send_nft_reward (s : DonorPayouts) (pred : AccountId) (attached : Nat) :
    Except String (DonorPayouts × ExternalCall) :=
  match mapGet s.donors pred with
  | none => .error "Donor not found"
  | some donor =>
    if donor.paid then .error "Payout already completed"
    else
      match firstNftChannel donor.reward_types with
      | none => .error "No NFT reward type found for donor"
      | some channel_id => .ok (s, .nftMint pred channel_id attached)

/-- `DonorPayouts::send_token_reward`: the transfer-flow entry point.  On
success it issues the `storage_balance_of` call (chained to
`on_storage_check_callback`) and leaves the state untouched. -/
def send_token_reward (s : DonorPayouts) (pred : AccountId) :
    Except String (DonorPayouts × ExternalCall) :=
  match mapGet s.donors pred with
  | none => .error "Donor not found"
  | some donor =>
    if donor.paid then .error "Payout already completed"
    else if RewardType.Token ∈ donor.reward_types then
      if donor.airdrop_amount = 0 then .error "No tokens to payout"
      else .ok (s, .storageBalanceOf pred)
    else .error "Donor reward type does not include Token"

/-- `NearToken::from_millinear(1250)` in yoctoNEAR: the storage-deposit
threshold the code actually checks (1 milliNEAR = 10^21 yoctoNEAR). -/
def STORAGE_DEPOSIT_AMOUNT : Nat := 1250 * 10 ^ 21

/-- 0.00125 NEAR in yoctoNEAR, the minimum the code's own assertion message
("need at least 0.00125 NEAR") announces. -/
def CLAIMED_MIN_DEPOSIT : Nat := 125 * 10 ^ 19

/-- `DonorPayouts::perform_ft_transfer`: issues `ft_transfer` chained to
`on_token_transfer_callback`. -/
def perform_ft_transfer (s : DonorPayouts) (receiver_id : AccountId) (amount : Nat) :
    DonorPayouts × ExternalCall :=
  (s, .ftTransfer receiver_id amount)

/-- `DonorPayouts::on_storage_check_callback`. -/
def on_storage_check_callback (s : DonorPayouts) (signer : AccountId)
    (amount attached_deposit : Nat) (results_count : Nat)
    (result : PromiseOutcome StorageCheckPayload) :
    Except String (DonorPayouts × ExternalCall) :=
  if results_count = 1 then
    match result with
    | .failed => .error "Storage balance check failed"
    | .successful .malformed => .error "Failed to parse storage_balance_of result"
    | .successful (.value isNull) =>
      if isNull = false then .ok (perform_ft_transfer s signer amount)
      else if STORAGE_DEPOSIT_AMOUNT ≤ attached_deposit then
        .ok (s, .storageDeposit signer STORAGE_DEPOSIT_AMOUNT)
      else
        .error "Insufficient deposit for storage registration, need at least 0.00125 NEAR"
  else .error "Expected one promise result"

/-- `DonorPayouts::on_storage_deposit_callback`. -/
def on_storage_deposit_callback (s : DonorPayouts) (signer : AccountId)
    (amount : Nat) (results_count : Nat) (result : PromiseOutcome Unit) :
    Except String (DonorPayouts × ExternalCall) :=
  if results_count = 1 then
    match result with
    | .successful _ => .ok (perform_ft_transfer s signer amount)
    | .failed => .error "Storage deposit failed"
  else .error "Expected one promise result"

def isNftType : RewardType → Bool
  | .NFT _ _ => true
  | .Token => false

/-- The match condition of `on_nft_mint_callback`'s scan loop. -/
abbrev nftRecMatch (donor_id : AccountId) (r : AirdropRecord) : Prop :=
  r.recipient = donor_id ∧ isNftType r.reward_type = true ∧ r.paid = false

/-- The match condition of `on_token_transfer_callback`'s scan loop. -/
abbrev tokenRecMatch (donor_id : AccountId) (amount : Nat) (r : AirdropRecord) : Prop :=
  r.recipient = donor_id ∧ r.amount = amount ∧
    r.reward_type = RewardType.Token ∧ r.paid = false

/-- The match condition of `mark_payout_complete`'s scan loop. -/
abbrev unpaidRecMatch (donor_id : AccountId) (r : AirdropRecord) : Prop :=
  r.recipient = donor_id ∧ r.paid = false

/-- The scan loop of `on_nft_mint_callback`: find the first airdrop record
with the donor as recipient, an NFT reward type and `paid == false`, and
replace its reward type with `new_rt` and its `paid` with `true`.  `none`
when no record matches. -/
def settleNft (donor_id : AccountId) (new_rt : RewardType) :
    List AirdropRecord → Option (List AirdropRecord)
  | [] => none
  | r :: rs =>
    if nftRecMatch donor_id r then
      some ({ r with reward_type := new_rt, paid := true } :: rs)
    else
      match settleNft donor_id new_rt rs with
      | none => none
      | some rs1 => some (r :: rs1)

/-- The reward-types update of `on_nft_mint_callback`: replace the first NFT
entry whose channel is `channel` by `new_rt`, pushing `new_rt` when there is
none. -/
def updateNftEntry (channel : String) (new_rt : RewardType) :
    List RewardType → List RewardType
  | [] => [new_rt]
  | .NFT c t :: rest =>
      if c = channel then new_rt :: rest
      else .NFT c t :: updateNftEntry channel new_rt rest
  | .Token :: rest => .Token :: updateNftEntry channel new_rt rest

/-- `DonorPayouts::on_nft_mint_callback`.  `result`'s payload is the minted
token id (the callback reads the returned bytes as a string). -/
def on_nft_mint_callback (s : DonorPayouts) (donor_id : AccountId)
    (results_count : Nat) (result : PromiseOutcome String) :
    Except String DonorPayouts :=
  if results_count = 1 then
    match mapGet s.donors donor_id with
    | none => .error "Donor not found"
    | some donor =>
      match firstNftChannel donor.reward_types with
      | none => .error "No NFT reward type"
      | some channel_id =>
        match result with
        | .failed => .ok s
        | .successful token_id =>
          let new_rt := RewardType.NFT channel_id token_id
          match settleNft donor_id new_rt s.airdrop_records with
          | none => .ok s
          | some recs =>
            .ok { s with
                  airdrop_records := recs,
                  donors := mapInsert s.donors donor_id
                    { donor with
                      reward_types := updateNftEntry channel_id new_rt donor.reward_types,
                      paid := true } }
  else .ok s

/-- The scan loop of `on_token_transfer_callback`: mark the first airdrop
record with the donor as recipient, the transferred amount, `Token` reward
type and `paid == false` as paid.  `none` when no record matches. -/
def settleToken (donor_id : AccountId) (amount : Nat) :
    List AirdropRecord → Option (List AirdropRecord)
  | [] => none
  | r :: rs =>
    if tokenRecMatch donor_id amount r then
      some ({ r with paid := true } :: rs)
    else
      match settleToken donor_id amount rs with
      | none => none
      | some rs1 => some (r :: rs1)

/-- `DonorPayouts::on_token_transfer_callback`. -/
def on_token_transfer_callback (s : DonorPayouts) (donor_id : AccountId)
    (amount : Nat) (results_count : Nat) (result : PromiseOutcome Unit) :
    Except String DonorPayouts :=
  if results_count = 1 then
    match result with
    | .failed => .ok s
    | .successful _ =>
      match mapGet s.donors donor_id with
      | none => .error "Donor not found"
      | some donor =>
        match settleToken donor_id amount s.airdrop_records with
        | none => .ok s
        | some recs =>
          .ok { s with
                airdrop_records := recs,
                donors := mapInsert s.donors donor_id { donor with paid := true } }
  else .ok s

/-- The scan-and-break loop of `mark_payout_complete`: mark the first
airdrop record of the donor with `paid == false` as paid (no change when
none matches). -/
def markFirstUnpaid (donor_id : AccountId) : List AirdropRecord → List AirdropRecord
  | [] => []
  | r :: rs =>
    if unpaidRecMatch donor_id r then { r with paid := true } :: rs
    else r :: markFirstUnpaid donor_id rs

/-- `DonorPayouts::mark_payout_complete`. -/
def mark_payout_complete (s : DonorPayouts) (pred : AccountId)
    (donor_id : AccountId) : Except String DonorPayouts :=
  if pred = s.admin then
    match mapGet s.donors donor_id with
    | none => .error "Donor not found"
    | some donor =>
      if donor.paid then .error "Payout already completed"
      else
        .ok { s with
              donors := mapInsert s.donors donor_id { donor with paid := true },
              airdrop_records := markFirstUnpaid donor_id s.airdrop_records }
  else .error "Only admin can call this function"

/-- `DonorPayouts::select_nft_reward`. -/
def select_nft_reward (s : DonorPayouts) (pred : AccountId)
    (channel_id : String) (dt : DonationType) : Except String DonorPayouts :=
  match mapGet s.donors pred with
  | none => .error "Donor not found"
  | some donor =>
    if RewardType.Token ∈ donor.reward_types then
      if donor.paid then .error "Payout already completed"
      else
        match checkDonationType dt with
        | .error e => .error e
        | .ok _ =>
          let donor1 := selectDonorUpdate donor dt (RewardType.NFT channel_id "")
          .ok { s with donors := mapInsert s.donors pred donor1 }
    else .error "Donor reward type does not include Token"

/-- `DonorPayouts::get_donor`. -/
def get_donor (s : DonorPayouts) (wallet_id : AccountId) : Option Donor :=
  mapGet s.donors wallet_id

/-- `x as usize` on the contract's wasm32 deployment target: `usize` is
32 bits there, so the u64 value truncates mod `2 ^ 32`. -/
def usizeCast (x : Nat) : Nat := x % 2 ^ 32

/-- `DonorPayouts::get_donors`.  `start`/`limit` are u64; the `skip`/`take`
offsets go through the 32-bit `usize` cast.  The u64 sum `start + limit` of
the `has_more` comparison aborts the call when it overflows (NEAR contracts
are built with overflow checks, and an abort returns no page), modelled as
the error branch. -/
def get_donors (s : DonorPayouts) (start limit : Nat) :
    Except String PaginatedDonors :=
  if 0 < limit ∧ limit ≤ 100 then
    if start + limit < 2 ^ 64 then
      .ok { donors := ((s.donors.map Prod.snd).drop (usizeCast start)).take (usizeCast limit),
            has_more := decide (start + limit < s.donors.length) }
    else .error "attempt to add with overflow"
  else .error "Limit must be between 1 and 100"

/-- `DonorPayouts::get_donors_by_donation_type`, with the same `usize`
cast and u64-overflow conventions as `get_donors`. -/
def get_donors_by_donation_type (s : DonorPayouts) (dt : DonationType)
    (start limit : Nat) : Except String PaginatedDonors :=
  if 0 < limit ∧ limit ≤ 100 then
    if start + limit < 2 ^ 64 then
      let matching := (s.donors.map Prod.snd).filter (fun d => decide (dt ∈ d.donation_types))
      .ok { donors := (matching.drop (usizeCast start)).take (usizeCast limit),
            has_more := decide (start + limit < matching.length) }
    else .error "attempt to add with overflow"
  else .error "Limit must be between 1 and 100"

/-- `DonorPayouts::get_airdrop_records`, with the same `usize` cast and
u64-overflow conventions as `get_donors`. -/
def get_airdrop_records (s : DonorPayouts) (start limit : Nat) :
    Except String PaginatedAirdropRecords :=
  if 0 < limit ∧ limit ≤ 100 then
    if start + limit < 2 ^ 64 then
      .ok { records := (s.airdrop_records.drop (usizeCast start)).take (usizeCast limit),
            has_more := decide (start + limit < s.airdrop_records.length) }
    else .error "attempt to add with overflow"
  else .error "Limit must be between 1 and 100"

/-- `DonorPayouts::get_airdrop_records_by_donation_type`, with the same
`usize` cast and u64-overflow conventions as `get_donors`. -/
def get_airdrop_records_by_donation_type (s : DonorPayouts) (dt : DonationType)
    (start limit : Nat) : Except String PaginatedAirdropRecords :=
  if 0 < limit ∧ limit ≤ 100 then
    if start + limit < 2 ^ 64 then
      let matching := s.airdrop_records.filter (fun r => decide (r.donation_type = dt))
      .ok { records := (matching.drop (usizeCast start)).take (usizeCast limit),
            has_more := decide (start + limit < matching.length) }
    else .error "attempt to add with overflow"
  else .error "Limit must be between 1 and 100"

/-- `DonorPayouts::get_total_distributed`. -/
def get_total_distributed (s : DonorPayouts) : Nat := s.total_distributed

/-- `DonorPayouts::get_donor_count`. -/
def get_donor_count (s : DonorPayouts) : Nat := s.donors.length

/-- `DonorPayouts::new` / `Default::default`: fresh state with the caller as
admin. -/
def initState (pred : AccountId) : DonorPayouts :=
  { donors := [], airdrop_records := [], total_distributed := 0, admin := pred }

/-- One state-mutating invocation of the contract, with every piece of host
context (`predecessor`, attached deposit, timestamp, promise results) it
reads carried as explicit arguments. -/
inductive ContractOp where
  | logAirdrop (pred : AccountId) (attached ts : Nat) (recipient : AccountId)
      (channel_id : String) (dt : DonationType) (amount : Nat)
  | recordDonation (pred : AccountId) (attached : Nat) (dt : DonationType)
  | selectNftReward (pred : AccountId) (channel_id : String) (dt : DonationType)
  | sendNftReward (pred : AccountId) (attached : Nat)
  | sendTokenReward (pred : AccountId)
  | storageCheckCb (signer : AccountId) (amount attached : Nat) (count : Nat)
      (res : PromiseOutcome StorageCheckPayload)
  | storageDepositCb (signer : AccountId) (amount : Nat) (count : Nat)
      (res : PromiseOutcome Unit)
  | nftMintCb (donor_id : AccountId) (count : Nat) (res : PromiseOutcome String)
  | tokenTransferCb (donor_id : AccountId) (amount : Nat) (count : Nat)
      (res : PromiseOutcome Unit)
  | markPayoutComplete (pred : AccountId) (donor_id : AccountId)

/-- An aborting invocation (`Except.error`) reverts to the pre-state. -/
def orKeep (s : DonorPayouts) : Except String DonorPayouts → DonorPayouts
  | .ok s1 => s1
  | .error _ => s

/-- Like `orKeep` for the operations that also issue an external call. -/
def orKeepCall (s : DonorPayouts) :
    Except String (DonorPayouts × ExternalCall) → DonorPayouts
  | .ok (s1, _) => s1
  | .error _ => s

/-- The state after one invocation. -/
def runOp (s : DonorPayouts) : ContractOp → DonorPayouts
  | .logAirdrop p att ts r ch dt amt => orKeep s (log_airdrop s p att ts r ch dt amt)
  | .recordDonation p att dt => orKeep s (record_donation s p att dt)
  | .selectNftReward p ch dt => orKeep s (select_nft_reward s p ch dt)
  | .sendNftReward p att => orKeepCall s (send_nft_reward s p att)
  | .sendTokenReward p => orKeepCall s (send_token_reward s p)
  | .storageCheckCb sg amt att cnt res =>
      orKeepCall s (on_storage_check_callback s sg amt att cnt res)
  | .storageDepositCb sg amt cnt res =>
      orKeepCall s (on_storage_deposit_callback s sg amt cnt res)
  | .nftMintCb d cnt res => orKeep s (on_nft_mint_callback s d cnt res)
  | .tokenTransferCb d amt cnt res =>
      orKeep s (on_token_transfer_callback s d amt cnt res)
  | .markPayoutComplete p d => orKeep s (mark_payout_complete s p d)

/-- The state after a sequence of invocations. -/
def runOps (s : DonorPayouts) : List ContractOp → DonorPayouts
  | [] => s
  | op :: ops => runOps (runOp s op) ops

/-! ## Lemmas about the store model -/

theorem mapGet_insert_self (m : List (AccountId × Donor)) (k : AccountId) (v : Donor) :
    mapGet (mapInsert m k v) k = some v := by
  induction m with
  | nil => simp [mapGet, mapInsert]
  | cons p rest ih =>
    obtain ⟨k1, v1⟩ := p
    by_cases h : k1 = k
    · simp [mapInsert, h, mapGet]
    · simp [mapInsert, h, mapGet, ih]

theorem mapGet_insert_ne (m : List (AccountId × Donor)) (k a : AccountId) (v : Donor)
    (h : a ≠ k) : mapGet (mapInsert m k v) a = mapGet m a := by
  have hka : ¬ k = a := fun e => h e.symm
  induction m with
  | nil => simp [mapGet, mapInsert, hka]
  | cons p rest ih =>
    obtain ⟨k1, v1⟩ := p
    by_cases h1 : k1 = k
    · subst h1
      simp [mapInsert, mapGet, hka]
    · simp [mapInsert, h1, mapGet, ih]

/-! ## Lemmas about the scan loops -/

theorem settleToken_eq_none (did : AccountId) (amt : Nat) (l : List AirdropRecord)
    (h : ∀ r ∈ l, ¬ tokenRecMatch did amt r) : settleToken did amt l = none := by
  induction l with
  | nil => rfl
  | cons r rs ih =>
    have hr : ¬ tokenRecMatch did amt r := h r (List.mem_cons_self r rs)
    have hrs := ih (fun x hx => h x (List.mem_cons_of_mem r hx))
    simp [settleToken, hr, hrs]

theorem settleToken_first (did : AccountId) (amt : Nat) (l1 : List AirdropRecord)
    (r : AirdropRecord) (l2 : List AirdropRecord) (hr : tokenRecMatch did amt r)
    (h1 : ∀ x ∈ l1, ¬ tokenRecMatch did amt x) :
    settleToken did amt (l1 ++ r :: l2) = some (l1 ++ { r with paid := true } :: l2) := by
  induction l1 with
  | nil => simp [settleToken, hr]
  | cons x xs ih =>
    have hx : ¬ tokenRecMatch did amt x := h1 x (List.mem_cons_self x xs)
    have := ih (fun y hy => h1 y (List.mem_cons_of_mem x hy))
    simp [settleToken, hx, this]

theorem settleToken_ok_shape (did : AccountId) (amt : Nat) (l l' : List AirdropRecord)
    (h : settleToken did amt l = some l') :
    ∃ l1 r l2, l = l1 ++ r :: l2 ∧ tokenRecMatch did amt r ∧
      (∀ x ∈ l1, ¬ tokenRecMatch did amt x) ∧
      l' = l1 ++ { r with paid := true } :: l2 := by
  induction l generalizing l' with
  | nil => simp [settleToken] at h
  | cons r rs ih =>
    by_cases hr : tokenRecMatch did amt r
    · refine ⟨[], r, rs, by simp, hr, by simp, ?_⟩
      simp only [settleToken] at h
      rw [if_pos hr] at h
      injection h with h
      exact h.symm
    · simp only [settleToken, if_neg hr] at h
      cases hs : settleToken did amt rs with
      | none => rw [hs] at h; cases h
      | some rs1 =>
        rw [hs] at h
        cases h
        obtain ⟨l1, x, l2, he, hx, hl1, hs1⟩ := ih rs1 hs
        exact ⟨r :: l1, x, l2, by simp [he], hx,
          by
            intro y hy
            rcases List.mem_cons.mp hy with h0 | h0
            · exact h0 ▸ hr
            · exact hl1 y h0,
          by simp [hs1]⟩

theorem settleNft_eq_none (did : AccountId) (nrt : RewardType) (l : List AirdropRecord)
    (h : ∀ r ∈ l, ¬ nftRecMatch did r) : settleNft did nrt l = none := by
  induction l with
  | nil => rfl
  | cons r rs ih =>
    have hr : ¬ nftRecMatch did r := h r (List.mem_cons_self r rs)
    have hrs := ih (fun x hx => h x (List.mem_cons_of_mem r hx))
    simp [settleNft, hr, hrs]

theorem settleNft_first (did : AccountId) (nrt : RewardType) (l1 : List AirdropRecord)
    (r : AirdropRecord) (l2 : List AirdropRecord) (hr : nftRecMatch did r)
    (h1 : ∀ x ∈ l1, ¬ nftRecMatch did x) :
    settleNft did nrt (l1 ++ r :: l2) =
      some (l1 ++ { r with reward_type := nrt, paid := true } :: l2) := by
  induction l1 with
  | nil => simp [settleNft, hr]
  | cons x xs ih =>
    have hx : ¬ nftRecMatch did x := h1 x (List.mem_cons_self x xs)
    have := ih (fun y hy => h1 y (List.mem_cons_of_mem x hy))
    simp [settleNft, hx, this]

theorem settleNft_ok_shape (did : AccountId) (nrt : RewardType) (l l' : List AirdropRecord)
    (h : settleNft did nrt l = some l') :
    ∃ l1 r l2, l = l1 ++ r :: l2 ∧ nftRecMatch did r ∧
      (∀ x ∈ l1, ¬ nftRecMatch did x) ∧
      l' = l1 ++ { r with reward_type := nrt, paid := true } :: l2 := by
  induction l generalizing l' with
  | nil => simp [settleNft] at h
  | cons r rs ih =>
    by_cases hr : nftRecMatch did r
    · refine ⟨[], r, rs, by simp, hr, by simp, ?_⟩
      simp only [settleNft] at h
      rw [if_pos hr] at h
      injection h with h
      exact h.symm
    · simp only [settleNft, if_neg hr] at h
      cases hs : settleNft did nrt rs with
      | none => rw [hs] at h; cases h
      | some rs1 =>
        rw [hs] at h
        cases h
        obtain ⟨l1, x, l2, he, hx, hl1, hs1⟩ := ih rs1 hs
        exact ⟨r :: l1, x, l2, by simp [he], hx,
          by
            intro y hy
            rcases List.mem_cons.mp hy with h0 | h0
            · exact h0 ▸ hr
            · exact hl1 y h0,
          by simp [hs1]⟩

theorem markFirstUnpaid_id (did : AccountId) (l : List AirdropRecord)
    (h : ∀ r ∈ l, ¬ unpaidRecMatch did r) : markFirstUnpaid did l = l := by
  induction l with
  | nil => rfl
  | cons r rs ih =>
    have hr : ¬ unpaidRecMatch did r := h r (List.mem_cons_self r rs)
    have hrs := ih (fun x hx => h x (List.mem_cons_of_mem r hx))
    simp [markFirstUnpaid, hr, hrs]

theorem markFirstUnpaid_first (did : AccountId) (l1 : List AirdropRecord)
    (r : AirdropRecord) (l2 : List AirdropRecord) (hr : unpaidRecMatch did r)
    (h1 : ∀ x ∈ l1, ¬ unpaidRecMatch did x) :
    markFirstUnpaid did (l1 ++ r :: l2) = l1 ++ { r with paid := true } :: l2 := by
  induction l1 with
  | nil => simp [markFirstUnpaid, hr]
  | cons x xs ih =>
    have hx : ¬ unpaidRecMatch did x := h1 x (List.mem_cons_self x xs)
    have := ih (fun y hy => h1 y (List.mem_cons_of_mem x hy))
    simp [markFirstUnpaid, hx, this]

theorem markFirstUnpaid_shape (did : AccountId) (l : List AirdropRecord) :
    markFirstUnpaid did l = l ∨
      ∃ l1 r l2, l = l1 ++ r :: l2 ∧ unpaidRecMatch did r ∧
        markFirstUnpaid did l = l1 ++ { r with paid := true } :: l2 := by
  induction l with
  | nil => exact Or.inl rfl
  | cons r rs ih =>
    by_cases hr : unpaidRecMatch did r
    · exact Or.inr ⟨[], r, rs, by simp, hr, by simp [markFirstUnpaid, hr]⟩
    · rcases ih with h0 | ⟨l1, x, l2, he, hx, hm⟩
      · exact Or.inl (by simp [markFirstUnpaid, hr, h0])
      · exact Or.inr ⟨r :: l1, x, l2, by simp [he],
          hx, by simp [markFirstUnpaid, hr, hm]⟩

theorem firstNftChannel_eq_none (l : List RewardType)
    (h : ∀ c t, RewardType.NFT c t ∉ l) : firstNftChannel l = none := by
  induction l with
  | nil => rfl
  | cons rt rest ih =>
    cases rt with
    | Token => exact ih (fun c t ht => h c t (List.mem_cons_of_mem _ ht))
    | NFT c t => exact absurd (List.mem_cons_self _ _) (h c t)

theorem firstNftChannel_isSome (l : List RewardType) (c : String) (t : String)
    (h : RewardType.NFT c t ∈ l) : ∃ c1, firstNftChannel l = some c1 := by
  induction l with
  | nil => cases h
  | cons rt rest ih =>
    cases rt with
    | Token =>
      rcases List.mem_cons.mp h with h0 | h0
      · cases h0
      · simpa [firstNftChannel] using ih h0
    | NFT c1 t1 => exact ⟨c1, rfl⟩

theorem updateNftEntry_push (channel : String) (nrt : RewardType) (l : List RewardType)
    (h : ∀ t, RewardType.NFT channel t ∉ l) :
    updateNftEntry channel nrt l = l ++ [nrt] := by
  induction l with
  | nil => rfl
  | cons rt rest ih =>
    cases rt with
    | Token =>
      simp [updateNftEntry, ih (fun t ht => h t (List.mem_cons_of_mem _ ht))]
    | NFT c t =>
      have hc : ¬ c = channel := by
        intro e
        exact h t (e ▸ List.mem_cons_self _ _)
      simp [updateNftEntry, hc, ih (fun t1 ht => h t1 (List.mem_cons_of_mem _ ht))]

theorem updateNftEntry_first (channel : String) (nrt : RewardType)
    (m1 : List RewardType) (t : String) (m2 : List RewardType)
    (h1 : ∀ x ∈ m1, ∀ t1, x ≠ RewardType.NFT channel t1) :
    updateNftEntry channel nrt (m1 ++ RewardType.NFT channel t :: m2) =
      m1 ++ nrt :: m2 := by
  induction m1 with
  | nil => simp [updateNftEntry]
  | cons x xs ih =>
    have hx := h1 x (List.mem_cons_self x xs)
    have htail := ih (fun y hy => h1 y (List.mem_cons_of_mem x hy))
    cases x with
    | Token => simp [updateNftEntry, htail]
    | NFT c t1 =>
      have hc : ¬ c = channel := fun e => hx t1 (by rw [e])
      simp [updateNftEntry, hc, htail]

/-! ## Preservation lemmas for settled record lists -/

theorem settleToken_length (did : AccountId) (amt : Nat) (l l' : List AirdropRecord)
    (h : settleToken did amt l = some l') : l'.length = l.length := by
  obtain ⟨l1, r, l2, he, _, _, hl⟩ := settleToken_ok_shape did amt l l' h
  simp [he, hl]

theorem settleToken_map_amount (did : AccountId) (amt : Nat) (l l' : List AirdropRecord)
    (h : settleToken did amt l = some l') :
    l'.map (fun r => r.amount) = l.map (fun r => r.amount) := by
  obtain ⟨l1, r, l2, he, _, _, hl⟩ := settleToken_ok_shape did amt l l' h
  simp [he, hl]

theorem settleNft_length (did : AccountId) (nrt : RewardType) (l l' : List AirdropRecord)
    (h : settleNft did nrt l = some l') : l'.length = l.length := by
  obtain ⟨l1, r, l2, he, _, _, hl⟩ := settleNft_ok_shape did nrt l l' h
  simp [he, hl]

theorem settleNft_map_amount (did : AccountId) (nrt : RewardType) (l l' : List AirdropRecord)
    (h : settleNft did nrt l = some l') :
    l'.map (fun r => r.amount) = l.map (fun r => r.amount) := by
  obtain ⟨l1, r, l2, he, _, _, hl⟩ := settleNft_ok_shape did nrt l l' h
  simp [he, hl]

theorem markFirstUnpaid_length (did : AccountId) (l : List AirdropRecord) :
    (markFirstUnpaid did l).length = l.length := by
  induction l with
  | nil => rfl
  | cons r rs ih =>
    by_cases hr : unpaidRecMatch did r
    · simp only [markFirstUnpaid, if_pos hr]
      simp
    · simp only [markFirstUnpaid, if_neg hr]
      simp [ih]

theorem markFirstUnpaid_map_amount (did : AccountId) (l : List AirdropRecord) :
    (markFirstUnpaid did l).map (fun r => r.amount) = l.map (fun r => r.amount) := by
  induction l with
  | nil => rfl
  | cons r rs ih =>
    by_cases hr : unpaidRecMatch did r
    · simp only [markFirstUnpaid, if_pos hr]
      simp
    · simp only [markFirstUnpaid, if_neg hr]
      simp [ih]

/-! ## The paid flag is monotone: definitions and generic lemmas -/

/-- Record-level monotonicity: a position already paid stays paid. -/
def recordsPaidMono (l l' : List AirdropRecord) : Prop :=
  ∀ (i : Nat) (r r' : AirdropRecord),
    l[i]? = some r → l'[i]? = some r' → r.paid = true → r'.paid = true

theorem recordsPaidMono_refl (l : List AirdropRecord) : recordsPaidMono l l := by
  intro i r r' h1 h2 hp
  rw [h1] at h2
  injection h2 with h2
  exact h2 ▸ hp

theorem recordsPaidMono_append (l l2 : List AirdropRecord) :
    recordsPaidMono l (l ++ l2) := by
  intro i r r' h1 h2 hp
  have hi : i < l.length := by
    rcases List.getElem?_eq_some.mp h1 with ⟨hlt, _⟩
    exact hlt
  rw [List.getElem?_append, if_pos hi] at h2
  rw [h1] at h2
  injection h2 with h2
  exact h2 ▸ hp

theorem recordsPaidMono_decomp (r r' : AirdropRecord) (hp : r.paid = true → r'.paid = true) :
    ∀ l1 l2, recordsPaidMono (l1 ++ r :: l2) (l1 ++ r' :: l2) := by
  intro l1
  induction l1 with
  | nil =>
    intro l2 i a b ha hb hpa
    rw [List.nil_append] at ha hb
    cases i with
    | zero =>
      rw [List.getElem?_cons_zero] at ha hb
      injection ha with ha
      injection hb with hb
      subst ha
      subst hb
      exact hp hpa
    | succ n =>
      rw [List.getElem?_cons_succ] at ha hb
      rw [ha] at hb
      injection hb with hb
      exact hb ▸ hpa
  | cons x xs ih =>
    intro l2 i a b ha hb hpa
    cases i with
    | zero =>
      rw [List.cons_append, List.getElem?_cons_zero] at ha hb
      injection ha with ha
      injection hb with hb
      subst ha
      subst hb
      exact hpa
    | succ n =>
      rw [List.cons_append, List.getElem?_cons_succ] at ha hb
      exact ih l2 n a b ha hb hpa

theorem recordsPaidMono_trans (l1 l2 l3 : List AirdropRecord)
    (hlen : l1.length ≤ l2.length) (h12 : recordsPaidMono l1 l2)
    (h23 : recordsPaidMono l2 l3) : recordsPaidMono l1 l3 := by
  intro i r r' h1 h3 hp
  have hi : i < l1.length := by
    rcases List.getElem?_eq_some.mp h1 with ⟨hlt, _⟩
    exact hlt
  have hi2 : i < l2.length := lt_of_lt_of_le hi hlen
  have h2 : l2[i]? = some l2[i] := List.getElem?_eq_getElem hi2
  exact h23 i _ r' h2 h3 (h12 i r _ h1 h2 hp)

/-- Donor-level monotonicity: a donor with `paid = true` keeps an entry with
`paid = true`. -/
def paidMonoDonors (m m' : List (AccountId × Donor)) : Prop :=
  ∀ a d, mapGet m a = some d → d.paid = true →
    ∃ d', mapGet m' a = some d' ∧ d'.paid = true

theorem paidMonoDonors_refl (m : List (AccountId × Donor)) : paidMonoDonors m m :=
  fun _ d h hp => ⟨d, h, hp⟩

theorem paidMonoDonors_insert (m : List (AccountId × Donor)) (k : AccountId) (v : Donor)
    (h : ∀ d, mapGet m k = some d → d.paid = true → v.paid = true) :
    paidMonoDonors m (mapInsert m k v) := by
  intro a d ha hp
  by_cases hk : a = k
  · subst hk
    exact ⟨v, mapGet_insert_self m a v, h d ha hp⟩
  · exact ⟨d, by rw [mapGet_insert_ne m k a v hk]; exact ha, hp⟩

theorem paidMonoDonors_trans (m1 m2 m3 : List (AccountId × Donor))
    (h12 : paidMonoDonors m1 m2) (h23 : paidMonoDonors m2 m3) :
    paidMonoDonors m1 m3 := by
  intro a d h1 hp
  obtain ⟨d2, h2, hp2⟩ := h12 a d h1 hp
  exact h23 a d2 h2 hp2

/-- The monotone-pay-flag relation between two contract states. -/
def paidMono (s s' : DonorPayouts) : Prop :=
  paidMonoDonors s.donors s'.donors ∧
  s.airdrop_records.length ≤ s'.airdrop_records.length ∧
  recordsPaidMono s.airdrop_records s'.airdrop_records

theorem paidMono_refl (s : DonorPayouts) : paidMono s s :=
  ⟨paidMonoDonors_refl _, le_refl _, recordsPaidMono_refl _⟩

theorem paidMono_trans (s1 s2 s3 : DonorPayouts) (h12 : paidMono s1 s2)
    (h23 : paidMono s2 s3) : paidMono s1 s3 :=
  ⟨paidMonoDonors_trans _ _ _ h12.1 h23.1,
   le_trans h12.2.1 h23.2.1,
   recordsPaidMono_trans _ _ _ h12.2.1 h12.2.2 h23.2.2⟩

/-! ## Field lemmas for the donor-update pipelines -/

theorem selectDonorUpdate_paid (d : Donor) (dt : DonationType) (rt : RewardType) :
    (selectDonorUpdate d dt rt).paid = d.paid := by
  simp only [selectDonorUpdate]
  split_ifs <;> rfl

theorem selectDonorUpdate_airdrop_amount (d : Donor) (dt : DonationType) (rt : RewardType) :
    (selectDonorUpdate d dt rt).airdrop_amount = d.airdrop_amount := by
  simp only [selectDonorUpdate]
  split_ifs <;> rfl

theorem selectDonorUpdate_donation_amount (d : Donor) (dt : DonationType) (rt : RewardType) :
    (selectDonorUpdate d dt rt).donation_amount = d.donation_amount := by
  simp only [selectDonorUpdate]
  split_ifs <;> rfl

theorem airdropDonorUpdate_paid (b : Donor) (amount attached : Nat)
    (dt : DonationType) (rt : RewardType) :
    (airdropDonorUpdate b amount attached dt rt).paid = b.paid := by
  simp [airdropDonorUpdate, selectDonorUpdate_paid]

theorem airdropDonorUpdate_airdrop_amount (b : Donor) (amount attached : Nat)
    (dt : DonationType) (rt : RewardType) :
    (airdropDonorUpdate b amount attached dt rt).airdrop_amount =
      b.airdrop_amount + amount := by
  simp [airdropDonorUpdate, selectDonorUpdate_airdrop_amount]

theorem airdropDonorUpdate_donation_amount (b : Donor) (amount attached : Nat)
    (dt : DonationType) (rt : RewardType) :
    (airdropDonorUpdate b amount attached dt rt).donation_amount =
      b.donation_amount + attached := by
  simp [airdropDonorUpdate, selectDonorUpdate_donation_amount]

/-! ## Shape lemmas for the operations -/

theorem log_airdrop_run (s : DonorPayouts) (p : AccountId) (att ts : Nat)
    (r : AccountId) (ch : String) (dt : DonationType) (amt : Nat)
    (hp : p = s.admin) (hdt : checkDonationType dt = .ok ()) :
    log_airdrop s p att ts r ch dt amt = .ok
      { s with
        donors := mapInsert s.donors r
          (airdropDonorUpdate ((mapGet s.donors r).getD (defaultDonor r)) amt att dt
            (if ch.isEmpty then RewardType.Token else RewardType.NFT ch "")),
        airdrop_records := s.airdrop_records ++
          [{ recipient := r, amount := amt, timestamp := ts, paid := false,
             reward_type := if ch.isEmpty then RewardType.Token else RewardType.NFT ch "",
             donation_type := dt }],
        total_distributed := s.total_distributed + amt } := by
  simp [log_airdrop, hp, hdt]

theorem log_airdrop_ok (s : DonorPayouts) (p : AccountId) (att ts : Nat)
    (r : AccountId) (ch : String) (dt : DonationType) (amt : Nat) (s1 : DonorPayouts)
    (h : log_airdrop s p att ts r ch dt amt = .ok s1) :
    p = s.admin ∧ checkDonationType dt = .ok () ∧
    s1 = { s with
      donors := mapInsert s.donors r
        (airdropDonorUpdate ((mapGet s.donors r).getD (defaultDonor r)) amt att dt
          (if ch.isEmpty then RewardType.Token else RewardType.NFT ch "")),
      airdrop_records := s.airdrop_records ++
        [{ recipient := r, amount := amt, timestamp := ts, paid := false,
           reward_type := if ch.isEmpty then RewardType.Token else RewardType.NFT ch "",
           donation_type := dt }],
      total_distributed := s.total_distributed + amt } := by
  by_cases hp : p = s.admin
  · cases hdt : checkDonationType dt with
    | error e =>
      simp only [log_airdrop, if_pos hp, hdt] at h
      exact Except.noConfusion h
    | ok u =>
      cases u
      have hrun := log_airdrop_run s p att ts r ch dt amt hp hdt
      rw [hrun] at h
      injection h with h
      exact ⟨hp, rfl, h.symm⟩
  · simp only [log_airdrop, if_neg hp] at h
    exact Except.noConfusion h

theorem record_donation_ok (s : DonorPayouts) (p : AccountId) (att : Nat)
    (dt : DonationType) (s1 : DonorPayouts) (h : record_donation s p att dt = .ok s1) :
    ∃ donor, s1 = { s with donors := mapInsert s.donors p donor } ∧
      donor.paid = ((mapGet s.donors p).getD (defaultDonor p)).paid := by
  by_cases ha : att = 0
  · simp only [record_donation, if_pos ha] at h
    exact Except.noConfusion h
  · cases hdt : checkDonationType dt with
    | error e =>
      simp only [record_donation, if_neg ha, hdt] at h
      exact Except.noConfusion h
    | ok u =>
      cases u
      simp only [record_donation, if_neg ha, hdt] at h
      injection h with h
      refine ⟨_, h.symm, ?_⟩
      split_ifs <;> rfl

theorem select_nft_reward_ok (s : DonorPayouts) (p : AccountId) (ch : String)
    (dt : DonationType) (s1 : DonorPayouts) (h : select_nft_reward s p ch dt = .ok s1) :
    ∃ donor, mapGet s.donors p = some donor ∧
      s1 = { s with donors := mapInsert s.donors p (selectDonorUpdate donor dt (RewardType.NFT ch "")) } := by
  cases hm : mapGet s.donors p with
  | none =>
    simp only [select_nft_reward, hm] at h
    exact Except.noConfusion h
  | some donor =>
    simp only [select_nft_reward, hm] at h
    by_cases ht : RewardType.Token ∈ donor.reward_types
    · rw [if_pos ht] at h
      by_cases hpd : donor.paid = true
      · rw [if_pos hpd] at h
        exact Except.noConfusion h
      · rw [if_neg hpd] at h
        cases hdt : checkDonationType dt with
        | error e =>
          rw [hdt] at h
          exact Except.noConfusion h
        | ok u =>
          cases u
          rw [hdt] at h
          injection h with h
          exact ⟨donor, rfl, h.symm⟩
    · rw [if_neg ht] at h
      exact Except.noConfusion h

theorem send_nft_reward_state (s : DonorPayouts) (p : AccountId) (att : Nat)
    (r : DonorPayouts × ExternalCall) (h : send_nft_reward s p att = .ok r) :
    r.1 = s := by
  cases hm : mapGet s.donors p with
  | none =>
    simp only [send_nft_reward, hm] at h
    exact Except.noConfusion h
  | some donor =>
    simp only [send_nft_reward, hm] at h
    by_cases hpd : donor.paid = true
    · rw [if_pos hpd] at h
      exact Except.noConfusion h
    · rw [if_neg hpd] at h
      cases hc : firstNftChannel donor.reward_types with
      | none =>
        rw [hc] at h
        exact Except.noConfusion h
      | some c =>
        rw [hc] at h
        injection h with h
        rw [← h]

theorem send_token_reward_state (s : DonorPayouts) (p : AccountId)
    (r : DonorPayouts × ExternalCall) (h : send_token_reward s p = .ok r) :
    r.1 = s := by
  cases hm : mapGet s.donors p with
  | none =>
    simp only [send_token_reward, hm] at h
    exact Except.noConfusion h
  | some donor =>
    simp only [send_token_reward, hm] at h
    by_cases hpd : donor.paid = true
    · rw [if_pos hpd] at h
      exact Except.noConfusion h
    · rw [if_neg hpd] at h
      by_cases ht : RewardType.Token ∈ donor.reward_types
      · rw [if_pos ht] at h
        by_cases hz : donor.airdrop_amount = 0
        · rw [if_pos hz] at h
          exact Except.noConfusion h
        · rw [if_neg hz] at h
          injection h with h
          rw [← h]
      · rw [if_neg ht] at h
        exact Except.noConfusion h

theorem on_storage_check_state (s : DonorPayouts) (sg : AccountId) (amt att cnt : Nat)
    (res : PromiseOutcome StorageCheckPayload) (r : DonorPayouts × ExternalCall)
    (h : on_storage_check_callback s sg amt att cnt res = .ok r) : r.1 = s := by
  by_cases hc : cnt = 1
  · cases res with
    | failed =>
      simp only [on_storage_check_callback, if_pos hc] at h
      exact Except.noConfusion h
    | successful payload =>
      cases payload with
      | malformed =>
        simp only [on_storage_check_callback, if_pos hc] at h
        exact Except.noConfusion h
      | value isNull =>
        simp only [on_storage_check_callback, if_pos hc] at h
        by_cases hn : isNull = false
        · rw [if_pos hn] at h
          injection h with h
          rw [← h]
          rfl
        · rw [if_neg hn] at h
          by_cases hd : STORAGE_DEPOSIT_AMOUNT ≤ att
          · rw [if_pos hd] at h
            injection h with h
            rw [← h]
          · rw [if_neg hd] at h
            exact Except.noConfusion h
  · simp only [on_storage_check_callback, if_neg hc] at h
    exact Except.noConfusion h

theorem on_storage_deposit_state (s : DonorPayouts) (sg : AccountId) (amt cnt : Nat)
    (res : PromiseOutcome Unit) (r : DonorPayouts × ExternalCall)
    (h : on_storage_deposit_callback s sg amt cnt res = .ok r) : r.1 = s := by
  by_cases hc : cnt = 1
  · cases res with
    | failed =>
      simp only [on_storage_deposit_callback, if_pos hc] at h
      exact Except.noConfusion h
    | successful u =>
      simp only [on_storage_deposit_callback, if_pos hc] at h
      injection h with h
      rw [← h]
      rfl
  · simp only [on_storage_deposit_callback, if_neg hc] at h
    exact Except.noConfusion h

theorem on_token_transfer_ok (s : DonorPayouts) (did : AccountId) (amt cnt : Nat)
    (res : PromiseOutcome Unit) (s1 : DonorPayouts)
    (h : on_token_transfer_callback s did amt cnt res = .ok s1) :
    s1 = s ∨ ∃ donor recs, mapGet s.donors did = some donor ∧
      settleToken did amt s.airdrop_records = some recs ∧
      s1 = { s with airdrop_records := recs,
                    donors := mapInsert s.donors did { donor with paid := true } } := by
  by_cases hc : cnt = 1
  · cases res with
    | failed =>
      simp only [on_token_transfer_callback, if_pos hc] at h
      injection h with h
      exact Or.inl h.symm
    | successful u =>
      simp only [on_token_transfer_callback, if_pos hc] at h
      cases hm : mapGet s.donors did with
      | none =>
        rw [hm] at h
        exact Except.noConfusion h
      | some donor =>
        rw [hm] at h
        cases hs : settleToken did amt s.airdrop_records with
        | none =>
          rw [hs] at h
          injection h with h
          exact Or.inl h.symm
        | some recs =>
          rw [hs] at h
          injection h with h
          exact Or.inr ⟨donor, recs, rfl, rfl, h.symm⟩
  · simp only [on_token_transfer_callback, if_neg hc] at h
    injection h with h
    exact Or.inl h.symm

theorem on_nft_mint_ok (s : DonorPayouts) (did : AccountId) (cnt : Nat)
    (res : PromiseOutcome String) (s1 : DonorPayouts)
    (h : on_nft_mint_callback s did cnt res = .ok s1) :
    s1 = s ∨ ∃ donor channel_id token_id recs,
      mapGet s.donors did = some donor ∧
      firstNftChannel donor.reward_types = some channel_id ∧
      res = .successful token_id ∧
      settleNft did (RewardType.NFT channel_id token_id) s.airdrop_records = some recs ∧
      s1 = { s with airdrop_records := recs,
                    donors := mapInsert s.donors did
                      { donor with
                        reward_types := updateNftEntry channel_id
                          (RewardType.NFT channel_id token_id) donor.reward_types,
                        paid := true } } := by
  by_cases hc : cnt = 1
  · cases hm : mapGet s.donors did with
    | none =>
      simp only [on_nft_mint_callback, if_pos hc, hm] at h
      exact Except.noConfusion h
    | some donor =>
      cases hch : firstNftChannel donor.reward_types with
      | none =>
        simp only [on_nft_mint_callback, if_pos hc, hm, hch] at h
        exact Except.noConfusion h
      | some channel_id =>
        cases res with
        | failed =>
          simp only [on_nft_mint_callback, if_pos hc, hm, hch] at h
          injection h with h
          exact Or.inl h.symm
        | successful token_id =>
          cases hs : settleNft did (RewardType.NFT channel_id token_id) s.airdrop_records with
          | none =>
            simp only [on_nft_mint_callback, if_pos hc, hm, hch, hs] at h
            injection h with h
            exact Or.inl h.symm
          | some recs =>
            simp only [on_nft_mint_callback, if_pos hc, hm, hch, hs] at h
            injection h with h
            exact Or.inr ⟨donor, channel_id, token_id, recs, rfl, hch, rfl, hs, h.symm⟩
  · simp only [on_nft_mint_callback, if_neg hc] at h
    injection h with h
    exact Or.inl h.symm

theorem mark_payout_complete_ok (s : DonorPayouts) (p : AccountId) (did : AccountId)
    (s1 : DonorPayouts) (h : mark_payout_complete s p did = .ok s1) :
    p = s.admin ∧ ∃ donor, mapGet s.donors did = some donor ∧ donor.paid = false ∧
      s1 = { s with donors := mapInsert s.donors did { donor with paid := true },
                    airdrop_records := markFirstUnpaid did s.airdrop_records } := by
  by_cases hp : p = s.admin
  · cases hm : mapGet s.donors did with
    | none =>
      simp only [mark_payout_complete, if_pos hp, hm] at h
      exact Except.noConfusion h
    | some donor =>
      simp only [mark_payout_complete, if_pos hp, hm] at h
      by_cases hpd : donor.paid = true
      · rw [if_pos hpd] at h
        exact Except.noConfusion h
      · rw [if_neg hpd] at h
        injection h with h
        exact ⟨hp, donor, rfl, Bool.not_eq_true donor.paid ▸ hpd, h.symm⟩
  · simp only [mark_payout_complete, if_neg hp] at h
    exact Except.noConfusion h

theorem markFirstUnpaid_paid_mono (did : AccountId) (l : List AirdropRecord) :
    recordsPaidMono l (markFirstUnpaid did l) := by
  rcases markFirstUnpaid_shape did l with h | ⟨l1, r, l2, he, hx, hm⟩
  · rw [h]
    exact recordsPaidMono_refl l
  · rw [hm, he]
    exact recordsPaidMono_decomp r _ (fun _ => rfl) l1 l2

/-- Every single invocation of the contract leaves the paid flags monotone. -/
theorem paidMono_runOp (s : DonorPayouts) (op : ContractOp) : paidMono s (runOp s op) := by
  cases op with
  | logAirdrop p att ts r ch dt amt =>
    cases hres : log_airdrop s p att ts r ch dt amt with
    | error e =>
      show paidMono s (orKeep s (log_airdrop s p att ts r ch dt amt))
      rw [hres]
      exact paidMono_refl s
    | ok s1 =>
      show paidMono s (orKeep s (log_airdrop s p att ts r ch dt amt))
      rw [hres]
      obtain ⟨hp, hdt, hshape⟩ := log_airdrop_ok s p att ts r ch dt amt s1 hres
      subst hshape
      refine ⟨?_, by simp [orKeep], recordsPaidMono_append _ _⟩
      apply paidMonoDonors_insert
      intro d hd hpd
      rw [airdropDonorUpdate_paid, hd]
      simpa using hpd
  | recordDonation p att dt =>
    cases hres : record_donation s p att dt with
    | error e =>
      show paidMono s (orKeep s (record_donation s p att dt))
      rw [hres]
      exact paidMono_refl s
    | ok s1 =>
      show paidMono s (orKeep s (record_donation s p att dt))
      rw [hres]
      obtain ⟨donor, hshape, hpaid⟩ := record_donation_ok s p att dt s1 hres
      subst hshape
      refine ⟨?_, le_refl _, recordsPaidMono_refl _⟩
      apply paidMonoDonors_insert
      intro d hd hpd
      rw [hpaid, hd]
      simpa using hpd
  | selectNftReward p ch dt =>
    cases hres : select_nft_reward s p ch dt with
    | error e =>
      show paidMono s (orKeep s (select_nft_reward s p ch dt))
      rw [hres]
      exact paidMono_refl s
    | ok s1 =>
      show paidMono s (orKeep s (select_nft_reward s p ch dt))
      rw [hres]
      obtain ⟨donor, hm, hshape⟩ := select_nft_reward_ok s p ch dt s1 hres
      subst hshape
      refine ⟨?_, le_refl _, recordsPaidMono_refl _⟩
      apply paidMonoDonors_insert
      intro d hd hpd
      rw [hm] at hd
      injection hd with hd
      subst hd
      rw [selectDonorUpdate_paid]
      exact hpd
  | sendNftReward p att =>
    cases hres : send_nft_reward s p att with
    | error e =>
      show paidMono s (orKeepCall s (send_nft_reward s p att))
      rw [hres]
      exact paidMono_refl s
    | ok r =>
      obtain ⟨s1, c⟩ := r
      have hst : s1 = s := send_nft_reward_state s p att (s1, c) hres
      show paidMono s (orKeepCall s (send_nft_reward s p att))
      rw [hres, hst]
      exact paidMono_refl s
  | sendTokenReward p =>
    cases hres : send_token_reward s p with
    | error e =>
      show paidMono s (orKeepCall s (send_token_reward s p))
      rw [hres]
      exact paidMono_refl s
    | ok r =>
      obtain ⟨s1, c⟩ := r
      have hst : s1 = s := send_token_reward_state s p (s1, c) hres
      show paidMono s (orKeepCall s (send_token_reward s p))
      rw [hres, hst]
      exact paidMono_refl s
  | storageCheckCb sg amt att cnt res =>
    cases hres : on_storage_check_callback s sg amt att cnt res with
    | error e =>
      show paidMono s (orKeepCall s (on_storage_check_callback s sg amt att cnt res))
      rw [hres]
      exact paidMono_refl s
    | ok r =>
      obtain ⟨s1, c⟩ := r
      have hst : s1 = s := on_storage_check_state s sg amt att cnt res (s1, c) hres
      show paidMono s (orKeepCall s (on_storage_check_callback s sg amt att cnt res))
      rw [hres, hst]
      exact paidMono_refl s
  | storageDepositCb sg amt cnt res =>
    cases hres : on_storage_deposit_callback s sg amt cnt res with
    | error e =>
      show paidMono s (orKeepCall s (on_storage_deposit_callback s sg amt cnt res))
      rw [hres]
      exact paidMono_refl s
    | ok r =>
      obtain ⟨s1, c⟩ := r
      have hst : s1 = s := on_storage_deposit_state s sg amt cnt res (s1, c) hres
      show paidMono s (orKeepCall s (on_storage_deposit_callback s sg amt cnt res))
      rw [hres, hst]
      exact paidMono_refl s
  | nftMintCb d cnt res =>
    cases hres : on_nft_mint_callback s d cnt res with
    | error e =>
      show paidMono s (orKeep s (on_nft_mint_callback s d cnt res))
      rw [hres]
      exact paidMono_refl s
    | ok s1 =>
      show paidMono s (orKeep s (on_nft_mint_callback s d cnt res))
      rw [hres]
      rcases on_nft_mint_ok s d cnt res s1 hres with h | ⟨donor, ch, tok, recs, hm, hch, hres2, hs, hshape⟩
      · rw [h]
        exact paidMono_refl s
      · subst hshape
        obtain ⟨l1, r0, l2, he, hmatch, hfirst, hl⟩ := settleNft_ok_shape _ _ _ _ hs
        refine ⟨paidMonoDonors_insert _ _ _ (fun d0 hd0 hpd0 => rfl), ?_, ?_⟩
        · exact le_of_eq (settleNft_length _ _ _ _ hs).symm
        · rw [hl, he]
          exact recordsPaidMono_decomp r0 _ (fun _ => rfl) l1 l2
  | tokenTransferCb d amt cnt res =>
    cases hres : on_token_transfer_callback s d amt cnt res with
    | error e =>
      show paidMono s (orKeep s (on_token_transfer_callback s d amt cnt res))
      rw [hres]
      exact paidMono_refl s
    | ok s1 =>
      show paidMono s (orKeep s (on_token_transfer_callback s d amt cnt res))
      rw [hres]
      rcases on_token_transfer_ok s d amt cnt res s1 hres with h | ⟨donor, recs, hm, hs, hshape⟩
      · rw [h]
        exact paidMono_refl s
      · subst hshape
        obtain ⟨l1, r0, l2, he, hmatch, hfirst, hl⟩ := settleToken_ok_shape _ _ _ _ hs
        refine ⟨paidMonoDonors_insert _ _ _ (fun d0 hd0 hpd0 => rfl), ?_, ?_⟩
        · exact le_of_eq (settleToken_length _ _ _ _ hs).symm
        · rw [hl, he]
          exact recordsPaidMono_decomp r0 _ (fun _ => rfl) l1 l2
  | markPayoutComplete p d =>
    cases hres : mark_payout_complete s p d with
    | error e =>
      show paidMono s (orKeep s (mark_payout_complete s p d))
      rw [hres]
      exact paidMono_refl s
    | ok s1 =>
      show paidMono s (orKeep s (mark_payout_complete s p d))
      rw [hres]
      obtain ⟨hp, donor, hm, hpd, hshape⟩ := mark_payout_complete_ok s p d s1 hres
      subst hshape
      refine ⟨paidMonoDonors_insert _ _ _ (fun d0 hd0 hpd0 => rfl), ?_, ?_⟩
      · exact le_of_eq (markFirstUnpaid_length d s.airdrop_records).symm
      · exact markFirstUnpaid_paid_mono d s.airdrop_records

/-- Monotonicity lifted to arbitrary invocation sequences. -/
theorem paidMono_runOps (ops : List ContractOp) : ∀ s : DonorPayouts, paidMono s (runOps s ops) := by
  induction ops with
  | nil => exact fun s => paidMono_refl s
  | cons op rest ih =>
    intro s
    exact paidMono_trans s (runOp s op) (runOps (runOp s op) rest)
      (paidMono_runOp s op) (ih (runOp s op))

/-- The conservation invariant: the global distribution counter equals the
sum of the amounts of all airdrop records. -/
def totalInv (s : DonorPayouts) : Prop :=
  s.total_distributed = (s.airdrop_records.map (fun r => r.amount)).sum

theorem totalInv_init (a : AccountId) : totalInv (initState a) := rfl

theorem totalInv_runOp (s : DonorPayouts) (op : ContractOp) (h : totalInv s) :
    totalInv (runOp s op) := by
  cases op with
  | logAirdrop p att ts r ch dt amt =>
    cases hres : log_airdrop s p att ts r ch dt amt with
    | error e =>
      show totalInv (orKeep s (log_airdrop s p att ts r ch dt amt))
      rw [hres]
      exact h
    | ok s1 =>
      show totalInv (orKeep s (log_airdrop s p att ts r ch dt amt))
      rw [hres]
      obtain ⟨hp, hdt, hshape⟩ := log_airdrop_ok s p att ts r ch dt amt s1 hres
      subst hshape
      simp [totalInv, orKeep]
      exact h
  | recordDonation p att dt =>
    cases hres : record_donation s p att dt with
    | error e =>
      show totalInv (orKeep s (record_donation s p att dt))
      rw [hres]
      exact h
    | ok s1 =>
      show totalInv (orKeep s (record_donation s p att dt))
      rw [hres]
      obtain ⟨donor, hshape, _⟩ := record_donation_ok s p att dt s1 hres
      subst hshape
      exact h
  | selectNftReward p ch dt =>
    cases hres : select_nft_reward s p ch dt with
    | error e =>
      show totalInv (orKeep s (select_nft_reward s p ch dt))
      rw [hres]
      exact h
    | ok s1 =>
      show totalInv (orKeep s (select_nft_reward s p ch dt))
      rw [hres]
      obtain ⟨donor, hm, hshape⟩ := select_nft_reward_ok s p ch dt s1 hres
      subst hshape
      exact h
  | sendNftReward p att =>
    cases hres : send_nft_reward s p att with
    | error e =>
      show totalInv (orKeepCall s (send_nft_reward s p att))
      rw [hres]
      exact h
    | ok r =>
      obtain ⟨s1, c⟩ := r
      have hst : s1 = s := send_nft_reward_state s p att (s1, c) hres
      show totalInv (orKeepCall s (send_nft_reward s p att))
      rw [hres, hst]
      exact h
  | sendTokenReward p =>
    cases hres : send_token_reward s p with
    | error e =>
      show totalInv (orKeepCall s (send_token_reward s p))
      rw [hres]
      exact h
    | ok r =>
      obtain ⟨s1, c⟩ := r
      have hst : s1 = s := send_token_reward_state s p (s1, c) hres
      show totalInv (orKeepCall s (send_token_reward s p))
      rw [hres, hst]
      exact h
  | storageCheckCb sg amt att cnt res =>
    cases hres : on_storage_check_callback s sg amt att cnt res with
    | error e =>
      show totalInv (orKeepCall s (on_storage_check_callback s sg amt att cnt res))
      rw [hres]
      exact h
    | ok r =>
      obtain ⟨s1, c⟩ := r
      have hst : s1 = s := on_storage_check_state s sg amt att cnt res (s1, c) hres
      show totalInv (orKeepCall s (on_storage_check_callback s sg amt att cnt res))
      rw [hres, hst]
      exact h
  | storageDepositCb sg amt cnt res =>
    cases hres : on_storage_deposit_callback s sg amt cnt res with
    | error e =>
      show totalInv (orKeepCall s (on_storage_deposit_callback s sg amt cnt res))
      rw [hres]
      exact h
    | ok r =>
      obtain ⟨s1, c⟩ := r
      have hst : s1 = s := on_storage_deposit_state s sg amt cnt res (s1, c) hres
      show totalInv (orKeepCall s (on_storage_deposit_callback s sg amt cnt res))
      rw [hres, hst]
      exact h
  | nftMintCb d cnt res =>
    cases hres : on_nft_mint_callback s d cnt res with
    | error e =>
      show totalInv (orKeep s (on_nft_mint_callback s d cnt res))
      rw [hres]
      exact h
    | ok s1 =>
      show totalInv (orKeep s (on_nft_mint_callback s d cnt res))
      rw [hres]
      rcases on_nft_mint_ok s d cnt res s1 hres with h0 | ⟨donor, ch, tok, recs, hm, hch, hres2, hs, hshape⟩
      · rw [h0]
        exact h
      · subst hshape
        show s.total_distributed = (recs.map (fun r => r.amount)).sum
        rw [settleNft_map_amount _ _ _ _ hs]
        exact h
  | tokenTransferCb d amt cnt res =>
    cases hres : on_token_transfer_callback s d amt cnt res with
    | error e =>
      show totalInv (orKeep s (on_token_transfer_callback s d amt cnt res))
      rw [hres]
      exact h
    | ok s1 =>
      show totalInv (orKeep s (on_token_transfer_callback s d amt cnt res))
      rw [hres]
      rcases on_token_transfer_ok s d amt cnt res s1 hres with h0 | ⟨donor, recs, hm, hs, hshape⟩
      · rw [h0]
        exact h
      · subst hshape
        show s.total_distributed = (recs.map (fun r => r.amount)).sum
        rw [settleToken_map_amount _ _ _ _ hs]
        exact h
  | markPayoutComplete p d =>
    cases hres : mark_payout_complete s p d with
    | error e =>
      show totalInv (orKeep s (mark_payout_complete s p d))
      rw [hres]
      exact h
    | ok s1 =>
      show totalInv (orKeep s (mark_payout_complete s p d))
      rw [hres]
      obtain ⟨hp, donor, hm, hpd, hshape⟩ := mark_payout_complete_ok s p d s1 hres
      subst hshape
      show s.total_distributed = ((markFirstUnpaid d s.airdrop_records).map (fun r => r.amount)).sum
      rw [markFirstUnpaid_map_amount]
      exact h

theorem totalInv_runOps (ops : List ContractOp) :
    ∀ s : DonorPayouts, totalInv s → totalInv (runOps s ops) := by
  induction ops with
  | nil => exact fun s h => h
  | cons op rest ih => exact fun s h => ih (runOp s op) (totalInv_runOp s op h)

/-! ## Claim theorems -/

theorem firstNftChannel_some_mem (l : List RewardType) (c : String)
    (h : firstNftChannel l = some c) : ∃ t, RewardType.NFT c t ∈ l := by
  induction l with
  | nil => exact Option.noConfusion h
  | cons rt rest ih =>
    cases rt with
    | Token =>
      simp only [firstNftChannel] at h
      obtain ⟨t, ht⟩ := ih h
      exact ⟨t, List.mem_cons_of_mem _ ht⟩
    | NFT c1 t1 =>
      simp only [firstNftChannel] at h
      injection h with h
      subst h
      exact ⟨t1, List.mem_cons_self _ _⟩

/-- C1: on a successful resumption, `on_token_transfer_callback` scans the
airdrop records in append order, marks exactly the first record with the
same recipient, `Token` reward kind, the same amount and `paid = false` as
paid and sets the donor's `paid` to true; with two matching unpaid records
A then B it settles A and leaves B unpaid; with no matching record it
mutates nothing and does not error.  (The donor of the callback is assumed
present, as guaranteed by the `send_token_reward` entry point that
schedules the callback.) -/
theorem c1_token_callback_settles_oldest_unpaid
    (s : DonorPayouts) (donor_id : AccountId) (amount : Nat) (d : Donor)
    (hd : mapGet s.donors donor_id = some d) :
    ((∀ r ∈ s.airdrop_records, ¬ tokenRecMatch donor_id amount r) →
       on_token_transfer_callback s donor_id amount 1 (.successful ()) = .ok s) ∧
    (∀ l1 r l2, s.airdrop_records = l1 ++ r :: l2 →
       tokenRecMatch donor_id amount r →
       (∀ x ∈ l1, ¬ tokenRecMatch donor_id amount x) →
       on_token_transfer_callback s donor_id amount 1 (.successful ()) =
         .ok { s with airdrop_records := l1 ++ { r with paid := true } :: l2,
                      donors := mapInsert s.donors donor_id { d with paid := true } }) ∧
    (∀ A B rest, s.airdrop_records = A :: B :: rest →
       tokenRecMatch donor_id amount A → tokenRecMatch donor_id amount B →
       B.paid = false ∧
       on_token_transfer_callback s donor_id amount 1 (.successful ()) =
         .ok { s with airdrop_records := { A with paid := true } :: B :: rest,
                      donors := mapInsert s.donors donor_id { d with paid := true } }) := by
  refine ⟨?_, ?_, ?_⟩
  · intro hno
    have hnone := settleToken_eq_none donor_id amount s.airdrop_records hno
    simp [on_token_transfer_callback, hd, hnone]
  · intro l1 r l2 he hr h1
    have hsettle : settleToken donor_id amount s.airdrop_records =
        some (l1 ++ { r with paid := true } :: l2) := by
      rw [he]
      exact settleToken_first donor_id amount l1 r l2 hr h1
    simp [on_token_transfer_callback, hd, hsettle]
  · intro A B rest he hA hB
    refine ⟨hB.2.2.2, ?_⟩
    have hsettle : settleToken donor_id amount s.airdrop_records =
        some ({ A with paid := true } :: B :: rest) := by
      rw [he]
      have := settleToken_first donor_id amount [] A (B :: rest) hA (by simp)
      simpa using this
    simp [on_token_transfer_callback, hd, hsettle]

def c1A : AirdropRecord :=
  { recipient := "alice", amount := 5, timestamp := 1, paid := false,
    reward_type := .Token, donation_type := .Direct }

def c1B : AirdropRecord :=
  { recipient := "alice", amount := 5, timestamp := 2, paid := false,
    reward_type := .Token, donation_type := .Direct }

def c1Donor : Donor :=
  { wallet_id := "alice", donation_amount := 0, airdrop_amount := 10, paid := false,
    reward_types := [.Token], donation_types := [.Direct] }

def c1State : DonorPayouts :=
  { donors := [("alice", c1Donor)], airdrop_records := [c1A, c1B],
    total_distributed := 10, admin := "adm" }

/-- Witness for C1 at a concrete two-record state: A is settled, B stays
unpaid. -/
theorem c1_witness :
    c1B.paid = false ∧
    on_token_transfer_callback c1State "alice" 5 1 (.successful ()) =
      .ok { c1State with
            airdrop_records := [{ c1A with paid := true }, c1B],
            donors := mapInsert c1State.donors "alice" { c1Donor with paid := true } } :=
  (c1_token_callback_settles_oldest_unpaid c1State "alice" 5 c1Donor rfl).2.2
    c1A c1B [] rfl (by decide) (by decide)

def c2Donor : Donor :=
  { wallet_id := "u", donation_amount := 0, airdrop_amount := 1, paid := false,
    reward_types := [.Token, .NFT "a" "", .NFT "b" ""], donation_types := [.Direct] }

def c2Rec : AirdropRecord :=
  { recipient := "u", amount := 1, timestamp := 0, paid := false,
    reward_type := .NFT "b" "", donation_type := .Direct }

def c2State : DonorPayouts :=
  { donors := [("u", c2Donor)], airdrop_records := [c2Rec],
    total_distributed := 1, admin := "adm" }

/-- Counterexample to C2: the settled record's channel is "b", but after a
successful mint the record's reward kind carries channel "a" (the donor's
first collectible channel), not "b" — the callback does more than set the
record's item identifier.  (This state is reachable: log an airdrop with an
empty channel, select the NFT reward for channel "a", then log an airdrop
with channel "b".) -/
theorem c2_counterexample :
    c2Rec.reward_type = RewardType.NFT "b" "" ∧
    (on_nft_mint_callback c2State "u" 1 (.successful "tok")).map
        (fun s => s.airdrop_records.map (fun r => r.reward_type)) =
      .ok [RewardType.NFT "a" "tok"] ∧
    RewardType.NFT "a" "tok" ≠ RewardType.NFT "b" "tok" :=
  ⟨rfl, rfl, by decide⟩

/-- C2 amended: on a successful mint resumption carrying item id `token_id`,
the callback settles the first unpaid collectible record of the donor, but
sets that record's reward kind to a collectible carrying the donor's FIRST
collectible channel `c` together with `token_id` (this coincides with
"setting the item identifier" exactly when the record's channel is `c`);
it replaces the donor's first reward-kind entry of channel `c` with the
same value and sets the donor's `paid` to true; with no matching unpaid
record nothing is mutated. -/
theorem c2_nft_callback_settles_first_unpaid
    (s : DonorPayouts) (donor_id : AccountId) (token_id : String) (d : Donor) (c : String)
    (hd : mapGet s.donors donor_id = some d)
    (hc : firstNftChannel d.reward_types = some c) :
    ((∀ r ∈ s.airdrop_records, ¬ nftRecMatch donor_id r) →
       on_nft_mint_callback s donor_id 1 (.successful token_id) = .ok s) ∧
    (∀ l1 r l2, s.airdrop_records = l1 ++ r :: l2 →
       nftRecMatch donor_id r →
       (∀ x ∈ l1, ¬ nftRecMatch donor_id x) →
       on_nft_mint_callback s donor_id 1 (.successful token_id) =
         .ok { s with
               airdrop_records :=
                 l1 ++ { r with reward_type := RewardType.NFT c token_id, paid := true } :: l2,
               donors := mapInsert s.donors donor_id
                 { d with
                   reward_types := updateNftEntry c (RewardType.NFT c token_id) d.reward_types,
                   paid := true } }) ∧
    (∀ m1 t m2, d.reward_types = m1 ++ RewardType.NFT c t :: m2 →
       (∀ x ∈ m1, ∀ t1, x ≠ RewardType.NFT c t1) →
       updateNftEntry c (RewardType.NFT c token_id) d.reward_types =
         m1 ++ RewardType.NFT c token_id :: m2) := by
  refine ⟨?_, ?_, ?_⟩
  · intro hno
    have hnone := settleNft_eq_none donor_id (RewardType.NFT c token_id) s.airdrop_records hno
    simp [on_nft_mint_callback, hd, hc, hnone]
  · intro l1 r l2 he hr h1
    have hsettle : settleNft donor_id (RewardType.NFT c token_id) s.airdrop_records =
        some (l1 ++ { r with reward_type := RewardType.NFT c token_id, paid := true } :: l2) := by
      rw [he]
      exact settleNft_first donor_id (RewardType.NFT c token_id) l1 r l2 hr h1
    simp [on_nft_mint_callback, hd, hc, hsettle]
  · intro m1 t m2 hrts h1
    rw [hrts]
    exact updateNftEntry_first c (RewardType.NFT c token_id) m1 t m2 h1

def c2bDonor : Donor :=
  { wallet_id := "u", donation_amount := 0, airdrop_amount := 1, paid := false,
    reward_types := [.Token, .NFT "ch" ""], donation_types := [.Direct] }

def c2bRec : AirdropRecord :=
  { recipient := "u", amount := 1, timestamp := 0, paid := false,
    reward_type := .NFT "ch" "", donation_type := .Direct }

def c2bState : DonorPayouts :=
  { donors := [("u", c2bDonor)], airdrop_records := [c2bRec],
    total_distributed := 1, admin := "adm" }

def c2bRecAfter : AirdropRecord :=
  { c2bRec with reward_type := RewardType.NFT "ch" "token-42", paid := true }

def c2bDonorAfter : Donor :=
  { c2bDonor with reward_types := updateNftEntry "ch" (RewardType.NFT "ch" "token-42") c2bDonor.reward_types, paid := true }

/-- Witness for the amended C2 at a concrete state whose record channel
equals the donor's first collectible channel. -/
theorem c2_witness :
    on_nft_mint_callback c2bState "u" 1 (.successful "token-42") =
      .ok { c2bState with
            airdrop_records := [c2bRecAfter],
            donors := mapInsert c2bState.donors "u" c2bDonorAfter } :=
  (c2_nft_callback_settles_first_unpaid c2bState "u" "token-42" c2bDonor "ch" rfl rfl).2.1
    [] c2bRec [] rfl (by decide) (by simp)

/-- C3: both saga entry points fail fast (error, no state change, no
external call) exactly when their guards do not hold: `send_nft_reward`
needs an existing donor, `paid = false` and a collectible entitlement;
`send_token_reward` needs an existing donor, `paid = false`, a `Token`
entitlement and a nonzero accrued amount; in particular an already-paid
donor is always rejected by both. -/
theorem c3_entry_points_fail_fast (s : DonorPayouts) (a : AccountId) (att : Nat) :
    ((∃ r, send_nft_reward s a att = .ok r) ↔
      (∃ d, mapGet s.donors a = some d ∧ d.paid = false ∧
        ∃ c t, RewardType.NFT c t ∈ d.reward_types)) ∧
    ((∃ r, send_token_reward s a = .ok r) ↔
      (∃ d, mapGet s.donors a = some d ∧ d.paid = false ∧
        RewardType.Token ∈ d.reward_types ∧ d.airdrop_amount ≠ 0)) ∧
    (∀ r, send_nft_reward s a att = .ok r → r.1 = s) ∧
    (∀ r, send_token_reward s a = .ok r → r.1 = s) ∧
    (∀ d, mapGet s.donors a = some d → d.paid = true →
      send_nft_reward s a att = .error "Payout already completed" ∧
      send_token_reward s a = .error "Payout already completed") := by
  refine ⟨?_, ?_, fun r h => send_nft_reward_state s a att r h,
    fun r h => send_token_reward_state s a r h, ?_⟩
  · constructor
    · rintro ⟨r, hok⟩
      cases hm : mapGet s.donors a with
      | none =>
        simp only [send_nft_reward, hm] at hok
        exact Except.noConfusion hok
      | some donor =>
        simp only [send_nft_reward, hm] at hok
        by_cases hpd : donor.paid = true
        · rw [if_pos hpd] at hok
          exact Except.noConfusion hok
        · rw [if_neg hpd] at hok
          cases hc : firstNftChannel donor.reward_types with
          | none =>
            rw [hc] at hok
            exact Except.noConfusion hok
          | some c =>
            obtain ⟨t, ht⟩ := firstNftChannel_some_mem donor.reward_types c hc
            exact ⟨donor, rfl, Bool.not_eq_true donor.paid ▸ hpd, c, t, ht⟩
    · rintro ⟨d, hm, hpd, c, t, ht⟩
      obtain ⟨c1, hc1⟩ := firstNftChannel_isSome d.reward_types c t ht
      refine ⟨(s, .nftMint a c1 att), ?_⟩
      simp [send_nft_reward, hm, hpd, hc1]
  · constructor
    · rintro ⟨r, hok⟩
      cases hm : mapGet s.donors a with
      | none =>
        simp only [send_token_reward, hm] at hok
        exact Except.noConfusion hok
      | some donor =>
        simp only [send_token_reward, hm] at hok
        by_cases hpd : donor.paid = true
        · rw [if_pos hpd] at hok
          exact Except.noConfusion hok
        · rw [if_neg hpd] at hok
          by_cases ht : RewardType.Token ∈ donor.reward_types
          · rw [if_pos ht] at hok
            by_cases hz : donor.airdrop_amount = 0
            · rw [if_pos hz] at hok
              exact Except.noConfusion hok
            · exact ⟨donor, rfl, Bool.not_eq_true donor.paid ▸ hpd, ht, hz⟩
          · rw [if_neg ht] at hok
            exact Except.noConfusion hok
    · rintro ⟨d, hm, hpd, ht, hz⟩
      refine ⟨(s, .storageBalanceOf a), ?_⟩
      simp [send_token_reward, hm, hpd, ht, hz]
  · intro d hm hpd
    constructor
    · simp [send_nft_reward, hm, hpd]
    · simp [send_token_reward, hm, hpd]

def c3Donor : Donor :=
  { wallet_id := "bob", donation_amount := 3, airdrop_amount := 5, paid := true,
    reward_types := [.Token, .NFT "ch" "id1"], donation_types := [.Direct] }

def c3State : DonorPayouts :=
  { donors := [("bob", c3Donor)], airdrop_records := [],
    total_distributed := 0, admin := "adm" }

/-- Witness for C3: an already-paid donor is rejected by both entry
points. -/
theorem c3_witness :
    send_nft_reward c3State "bob" 0 = .error "Payout already completed" ∧
    send_token_reward c3State "bob" = .error "Payout already completed" :=
  (c3_entry_points_fail_fast c3State "bob" 0).2.2.2.2 c3Donor rfl rfl

/-- Counterexample to C4: a single `log_airdrop` with channel "ch1" on a
fresh participant leaves `reward_types = [NFT "ch1" ""]` — the collectible
entitlement alone; no fungible (`Token`) entitlement is added. -/
theorem c4_counterexample :
    (log_airdrop (initState "adm") "adm" 0 0 "u" "ch1" DonationType.Direct 1).map
        (fun s => (mapGet s.donors "u").map (fun d => d.reward_types)) =
      .ok (some [RewardType.NFT "ch1" ""]) ∧
    RewardType.Token ∉ [RewardType.NFT "ch1" ""] :=
  ⟨rfl, by decide⟩

/-- C4 amended: a `log_airdrop` call with a non-empty channel identifier
gives the participant a collectible entitlement for that channel with an
empty item identifier, and that is the only reward kind the call adds — a
fresh participant ends with `reward_types = [NFT channel ""]` and no
fungible entitlement (empty channel ⇒ fungible, non-empty ⇒ collectible;
the two are exclusive per call). -/
theorem c4_nonempty_channel_adds_only_nft (s : DonorPayouts) (p : AccountId)
    (att ts : Nat) (u : AccountId) (ch : String) (dt : DonationType) (amt : Nat)
    (hp : p = s.admin) (hdt : checkDonationType dt = .ok ())
    (hch : ch.isEmpty = false) (hu : mapGet s.donors u = none) :
    ∃ s1 d1, log_airdrop s p att ts u ch dt amt = .ok s1 ∧
      mapGet s1.donors u = some d1 ∧
      d1.reward_types = [RewardType.NFT ch ""] ∧
      RewardType.Token ∉ d1.reward_types ∧
      (∃ rec, s1.airdrop_records = s.airdrop_records ++ [rec] ∧
        rec.reward_type = RewardType.NFT ch "" ∧ rec.paid = false) := by
  have hrun := log_airdrop_run s p att ts u ch dt amt hp hdt
  rw [hch] at hrun
  simp only [Bool.false_eq_true, if_false] at hrun
  refine ⟨_, _, hrun, mapGet_insert_self _ _ _, ?_, ?_, ⟨_, rfl, rfl, rfl⟩⟩
  · rw [hu]
    simp [airdropDonorUpdate, selectDonorUpdate, defaultDonor]
  · rw [hu]
    simp [airdropDonorUpdate, selectDonorUpdate, defaultDonor]

/-- Witness for the amended C4 at a concrete fresh state. -/
theorem c4_witness :
    ∃ s1 d1, log_airdrop (initState "adm") "adm" 2 0 "u" "ch1" DonationType.Direct 1 = .ok s1 ∧
      mapGet s1.donors "u" = some d1 ∧
      d1.reward_types = [RewardType.NFT "ch1" ""] ∧
      RewardType.Token ∉ d1.reward_types ∧
      (∃ rec, s1.airdrop_records = (initState "adm").airdrop_records ++ [rec] ∧
        rec.reward_type = RewardType.NFT "ch1" "" ∧ rec.paid = false) :=
  c4_nonempty_channel_adds_only_nft (initState "adm") "adm" 2 0 "u" "ch1"
    DonationType.Direct 1 rfl rfl rfl rfl

/-- C5 (code bug evaluation): with the recipient unregistered, the code
rejects an attached deposit of exactly 0.00125 NEAR — the minimum its own
error message announces — because it compares against
`NearToken::from_millinear(1250)` = 1.25 NEAR, 1000 times the documented
minimum; a registered recipient goes straight to the transfer call, and a
deposit meeting the (mistaken) threshold triggers the registration call. -/
theorem c5_storage_deposit_threshold :
    on_storage_check_callback (initState "adm") "u" 7 CLAIMED_MIN_DEPOSIT 1
        (.successful (.value true)) =
      .error "Insufficient deposit for storage registration, need at least 0.00125 NEAR" ∧
    CLAIMED_MIN_DEPOSIT = 125 * 10 ^ 19 ∧
    STORAGE_DEPOSIT_AMOUNT = 1000 * CLAIMED_MIN_DEPOSIT ∧
    on_storage_check_callback (initState "adm") "u" 7 CLAIMED_MIN_DEPOSIT 1
        (.successful (.value false)) =
      .ok (initState "adm", .ftTransfer "u" 7) ∧
    on_storage_check_callback (initState "adm") "u" 7 STORAGE_DEPOSIT_AMOUNT 1
        (.successful (.value true)) =
      .ok (initState "adm", .storageDeposit "u" STORAGE_DEPOSIT_AMOUNT) := by
  exact ⟨rfl, rfl, by norm_num [STORAGE_DEPOSIT_AMOUNT, CLAIMED_MIN_DEPOSIT], rfl, rfl⟩

/-- C6: the administrative `mark_payout_complete` rejects with a
state-precondition error when the target donor is already paid (mutating
nothing); otherwise it sets the donor's `paid` to true and marks exactly
the donor's first unpaid airdrop record (in append order) as paid, leaving
every other record untouched — at most one record is mutated. -/
theorem c6_mark_payout_complete (s : DonorPayouts) (p did : AccountId) (d : Donor)
    (hp : p = s.admin) (hd : mapGet s.donors did = some d) :
    (d.paid = true → mark_payout_complete s p did = .error "Payout already completed") ∧
    (d.paid = false →
      ((∀ r ∈ s.airdrop_records, ¬ unpaidRecMatch did r) →
        mark_payout_complete s p did =
          .ok { s with donors := mapInsert s.donors did { d with paid := true } }) ∧
      (∀ l1 r l2, s.airdrop_records = l1 ++ r :: l2 → unpaidRecMatch did r →
        (∀ x ∈ l1, ¬ unpaidRecMatch did x) →
        mark_payout_complete s p did =
          .ok { s with
                donors := mapInsert s.donors did { d with paid := true },
                airdrop_records := l1 ++ { r with paid := true } :: l2 })) := by
  constructor
  · intro hpaid
    simp [mark_payout_complete, hp, hd, hpaid]
  · intro hpaid
    constructor
    · intro hno
      have hid := markFirstUnpaid_id did s.airdrop_records hno
      simp [mark_payout_complete, hp, hd, hpaid, hid]
    · intro l1 r l2 he hr h1
      have hm : markFirstUnpaid did s.airdrop_records = l1 ++ { r with paid := true } :: l2 := by
        rw [he]
        exact markFirstUnpaid_first did l1 r l2 hr h1
      simp [mark_payout_complete, hp, hd, hpaid, hm]

def c6Donor : Donor :=
  { wallet_id := "bob", donation_amount := 0, airdrop_amount := 5, paid := true,
    reward_types := [.Token], donation_types := [.Direct] }

def c6State : DonorPayouts :=
  { donors := [("bob", c6Donor)], airdrop_records := [],
    total_distributed := 0, admin := "adm" }

/-- Witness for C6: marking an already-paid donor fails with the
state-precondition error. -/
theorem c6_witness :
    mark_payout_complete c6State "adm" "bob" = .error "Payout already completed" :=
  (c6_mark_payout_complete c6State "adm" "bob" c6Donor rfl rfl).1 rfl

/-- C7: the paid flags are monotone.  Every single contract invocation
(`runOp` covers log_airdrop, record_donation, select_nft_reward, both saga
entry points, all continuation callbacks and mark_payout_complete, with a
panicking invocation reverting the state) maps a donor whose `paid` is true
to a donor entry whose `paid` is still true, never removes or un-pays an
airdrop record position, and the same holds for arbitrary invocation
sequences — so a `paid` flag never reverts from true to false and can flip
false-to-true at most once. -/
theorem c7_paid_flag_monotone :
    (∀ (s : DonorPayouts) (op : ContractOp), paidMono s (runOp s op)) ∧
    (∀ (s : DonorPayouts) (ops : List ContractOp), paidMono s (runOps s ops)) :=
  ⟨paidMono_runOp, fun s ops => paidMono_runOps ops s⟩

def c7Donor : Donor :=
  { wallet_id := "u", donation_amount := 0, airdrop_amount := 1, paid := true,
    reward_types := [.Token], donation_types := [.Direct] }

def c7State : DonorPayouts :=
  { donors := [("u", c7Donor)], airdrop_records := [],
    total_distributed := 0, admin := "adm" }

/-- Witness for C7 at a concrete paid donor and a concrete operation. -/
theorem c7_witness :
    paidMono c7State (runOp c7State (ContractOp.recordDonation "u" 5 DonationType.Direct)) :=
  c7_paid_flag_monotone.1 c7State (ContractOp.recordDonation "u" 5 DonationType.Direct)

def c8Donor : Donor :=
  { wallet_id := "u", donation_amount := 0, airdrop_amount := 1, paid := false,
    reward_types := [.Token], donation_types := [.Direct] }

def c8Rec : AirdropRecord :=
  { recipient := "u", amount := 1, timestamp := 0, paid := false,
    reward_type := .Token, donation_type := .Direct }

def c8State : DonorPayouts :=
  { donors := [("u", c8Donor)], airdrop_records := [c8Rec],
    total_distributed := 1, admin := "adm" }

/-- Counterexample to C8: on the wasm32 target `start as usize` truncates
mod `2 ^ 32`, so at `start = 2 ^ 32` over a one-element store with
`limit = 1` both listings return a page of 1 item (the first page), while
the claimed count `min(limit, max(0, N - start))` is 0. -/
theorem c8_counterexample :
    (get_donors c8State (2 ^ 32) 1).map (fun p => p.donors.length) = .ok 1 ∧
    (get_airdrop_records c8State (2 ^ 32) 1).map (fun p => p.records.length) = .ok 1 ∧
    min 1 (c8State.donors.length - 2 ^ 32) = 0 ∧
    min 1 (c8State.airdrop_records.length - 2 ^ 32) = 0 :=
  ⟨rfl, rfl, rfl, rfl⟩

/-- C8 amended: every paginated listing rejects `limit` outside `[1, 100]`
(and a u64-overflowing `start + limit` aborts the call with no page); the
u64 `skip`/`take` offsets pass through the contract's 32-bit wasm `usize`
cast, so the effective offset is `start mod 2 ^ 32` (and the effective
count is `limit mod 2 ^ 32 = limit`, as `limit ≤ 100`): for `N` qualifying
items the returned page is the slice of length
`min limit (N - start mod 2 ^ 32)` taken in order from offset
`start mod 2 ^ 32` — which is the originally claimed
`min(limit, max(0, N - start))` from offset `start` whenever
`start < 2 ^ 32` — and `has_more` holds iff `N > start + limit`. -/
theorem c8_pagination_truncated_offset (s : DonorPayouts) (dt : DonationType)
    (start limit : Nat) :
    (¬ (0 < limit ∧ limit ≤ 100) →
      get_donors s start limit = .error "Limit must be between 1 and 100" ∧
      get_donors_by_donation_type s dt start limit = .error "Limit must be between 1 and 100" ∧
      get_airdrop_records s start limit = .error "Limit must be between 1 and 100" ∧
      get_airdrop_records_by_donation_type s dt start limit =
        .error "Limit must be between 1 and 100") ∧
    ((0 < limit ∧ limit ≤ 100) → ¬ (start + limit < 2 ^ 64) →
      get_donors s start limit = .error "attempt to add with overflow" ∧
      get_donors_by_donation_type s dt start limit = .error "attempt to add with overflow" ∧
      get_airdrop_records s start limit = .error "attempt to add with overflow" ∧
      get_airdrop_records_by_donation_type s dt start limit =
        .error "attempt to add with overflow") ∧
    ((0 < limit ∧ limit ≤ 100) → start + limit < 2 ^ 64 →
      (∃ p1, get_donors s start limit = .ok p1 ∧
        p1.donors = ((s.donors.map Prod.snd).drop (usizeCast start)).take limit ∧
        p1.donors.length = min limit (s.donors.length - usizeCast start) ∧
        (p1.has_more = true ↔ start + limit < s.donors.length) ∧
        (start < 2 ^ 32 → p1.donors.length = min limit (s.donors.length - start))) ∧
      (∃ p2, get_donors_by_donation_type s dt start limit = .ok p2 ∧
        p2.donors = (((s.donors.map Prod.snd).filter
          (fun d => decide (dt ∈ d.donation_types))).drop (usizeCast start)).take limit ∧
        p2.donors.length = min limit (((s.donors.map Prod.snd).filter
          (fun d => decide (dt ∈ d.donation_types))).length - usizeCast start) ∧
        (p2.has_more = true ↔ start + limit < ((s.donors.map Prod.snd).filter
          (fun d => decide (dt ∈ d.donation_types))).length) ∧
        (start < 2 ^ 32 → p2.donors.length = min limit (((s.donors.map Prod.snd).filter
          (fun d => decide (dt ∈ d.donation_types))).length - start))) ∧
      (∃ p3, get_airdrop_records s start limit = .ok p3 ∧
        p3.records = (s.airdrop_records.drop (usizeCast start)).take limit ∧
        p3.records.length = min limit (s.airdrop_records.length - usizeCast start) ∧
        (p3.has_more = true ↔ start + limit < s.airdrop_records.length) ∧
        (start < 2 ^ 32 → p3.records.length = min limit (s.airdrop_records.length - start))) ∧
      (∃ p4, get_airdrop_records_by_donation_type s dt start limit = .ok p4 ∧
        p4.records = ((s.airdrop_records.filter
          (fun r => decide (r.donation_type = dt))).drop (usizeCast start)).take limit ∧
        p4.records.length = min limit ((s.airdrop_records.filter
          (fun r => decide (r.donation_type = dt))).length - usizeCast start) ∧
        (p4.has_more = true ↔ start + limit < (s.airdrop_records.filter
          (fun r => decide (r.donation_type = dt))).length) ∧
        (start < 2 ^ 32 → p4.records.length = min limit ((s.airdrop_records.filter
          (fun r => decide (r.donation_type = dt))).length - start)))) := by
  refine ⟨?_, ?_, ?_⟩
  · intro hlim
    refine ⟨?_, ?_, ?_, ?_⟩ <;>
      simp [get_donors, get_donors_by_donation_type, get_airdrop_records,
        get_airdrop_records_by_donation_type, hlim]
  · intro hlim hov
    have hov2 : 2 ^ 64 ≤ start + limit := Nat.not_lt.mp hov
    norm_num at hov2
    refine ⟨?_, ?_, ?_, ?_⟩ <;>
      simp [get_donors, get_donors_by_donation_type, get_airdrop_records,
        get_airdrop_records_by_donation_type, hlim, hov2]
  · intro hlim hov
    have hl32 : usizeCast limit = limit :=
      Nat.mod_eq_of_lt (lt_of_le_of_lt hlim.2 (by norm_num))
    refine ⟨?_, ?_, ?_, ?_⟩
    · refine ⟨⟨((s.donors.map Prod.snd).drop (usizeCast start)).take (usizeCast limit),
        decide (start + limit < s.donors.length)⟩,
        by simp only [get_donors, if_pos hlim, if_pos hov],
        by rw [hl32],
        by rw [hl32, List.length_take, List.length_drop, List.length_map],
        by simp, ?_⟩
      intro h32
      have hs32 : usizeCast start = start := Nat.mod_eq_of_lt h32
      rw [hl32, hs32, List.length_take, List.length_drop, List.length_map]
    · refine ⟨⟨(((s.donors.map Prod.snd).filter
          (fun d => decide (dt ∈ d.donation_types))).drop (usizeCast start)).take (usizeCast limit),
        decide (start + limit < ((s.donors.map Prod.snd).filter
          (fun d => decide (dt ∈ d.donation_types))).length)⟩,
        by simp only [get_donors_by_donation_type, if_pos hlim, if_pos hov],
        by rw [hl32],
        by rw [hl32, List.length_take, List.length_drop],
        by simp, ?_⟩
      intro h32
      have hs32 : usizeCast start = start := Nat.mod_eq_of_lt h32
      rw [hl32, hs32, List.length_take, List.length_drop]
    · refine ⟨⟨(s.airdrop_records.drop (usizeCast start)).take (usizeCast limit),
        decide (start + limit < s.airdrop_records.length)⟩,
        by simp only [get_airdrop_records, if_pos hlim, if_pos hov],
        by rw [hl32],
        by rw [hl32, List.length_take, List.length_drop],
        by simp, ?_⟩
      intro h32
      have hs32 : usizeCast start = start := Nat.mod_eq_of_lt h32
      rw [hl32, hs32, List.length_take, List.length_drop]
    · refine ⟨⟨((s.airdrop_records.filter
          (fun r => decide (r.donation_type = dt))).drop (usizeCast start)).take (usizeCast limit),
        decide (start + limit < (s.airdrop_records.filter
          (fun r => decide (r.donation_type = dt))).length)⟩,
        by simp only [get_airdrop_records_by_donation_type, if_pos hlim, if_pos hov],
        by rw [hl32],
        by rw [hl32, List.length_take, List.length_drop],
        by simp, ?_⟩
      intro h32
      have hs32 : usizeCast start = start := Nat.mod_eq_of_lt h32
      rw [hl32, hs32, List.length_take, List.length_drop]

/-- C9: the conservation invariant.  `initState` satisfies it, every
invocation preserves it, every invocation sequence from a fresh state
satisfies it, and a successful `log_airdrop` is exactly an append of one
record together with a `total_distributed` increment by that record's
amount. -/
theorem c9_total_distributed_conservation :
    (∀ a : AccountId, totalInv (initState a)) ∧
    (∀ (s : DonorPayouts) (op : ContractOp), totalInv s → totalInv (runOp s op)) ∧
    (∀ (a : AccountId) (ops : List ContractOp), totalInv (runOps (initState a) ops)) ∧
    (∀ (s : DonorPayouts) (p : AccountId) (att ts : Nat) (u : AccountId) (ch : String)
        (dt : DonationType) (amt : Nat) (s1 : DonorPayouts),
      log_airdrop s p att ts u ch dt amt = .ok s1 →
      s1.total_distributed = s.total_distributed + amt ∧
      ∃ rec, s1.airdrop_records = s.airdrop_records ++ [rec] ∧ rec.amount = amt) := by
  refine ⟨totalInv_init, totalInv_runOp,
    fun a ops => totalInv_runOps ops (initState a) (totalInv_init a), ?_⟩
  intro s p att ts u ch dt amt s1 h
  obtain ⟨hp, hdt, hshape⟩ := log_airdrop_ok s p att ts u ch dt amt s1 h
  subst hshape
  exact ⟨rfl, ⟨_, rfl, rfl⟩⟩

/-- C10: `log_airdrop` has no paid-flag precondition — for an existing
participant whose `paid` flag is already true it succeeds, appends a fresh
unpaid record, adds the airdropped amount to `airdrop_amount` and the
attached deposit to `donation_amount`, and leaves `paid` unchanged
(still true). -/
theorem c10_log_airdrop_ignores_paid (s : DonorPayouts) (p : AccountId) (att ts : Nat)
    (u : AccountId) (ch : String) (dt : DonationType) (amt : Nat) (d : Donor)
    (hp : p = s.admin) (hdt : checkDonationType dt = .ok ())
    (hd : mapGet s.donors u = some d) (hpaid : d.paid = true) :
    ∃ s1, log_airdrop s p att ts u ch dt amt = .ok s1 ∧
      (∃ rec, s1.airdrop_records = s.airdrop_records ++ [rec] ∧ rec.recipient = u ∧
        rec.amount = amt ∧ rec.paid = false) ∧
      (∃ d1, mapGet s1.donors u = some d1 ∧
        d1.airdrop_amount = d.airdrop_amount + amt ∧
        d1.donation_amount = d.donation_amount + att ∧
        d1.paid = true) := by
  have hrun := log_airdrop_run s p att ts u ch dt amt hp hdt
  refine ⟨_, hrun, ⟨_, rfl, rfl, rfl, rfl⟩, ⟨_, mapGet_insert_self _ _ _, ?_, ?_, ?_⟩⟩
  · rw [airdropDonorUpdate_airdrop_amount, hd]
    rfl
  · rw [airdropDonorUpdate_donation_amount, hd]
    rfl
  · rw [airdropDonorUpdate_paid, hd]
    exact hpaid

def c10Donor : Donor :=
  { wallet_id := "u", donation_amount := 4, airdrop_amount := 6, paid := true,
    reward_types := [.Token], donation_types := [.Direct] }

def c10State : DonorPayouts :=
  { donors := [("u", c10Donor)], airdrop_records := [],
    total_distributed := 0, admin := "adm" }

/-- Witness for C10: logging an airdrop for an already-paid participant
succeeds and keeps `paid = true`. -/
theorem c10_witness :
    ∃ s1, log_airdrop c10State "adm" 2 0 "u" "" DonationType.Direct 3 = .ok s1 ∧
      (∃ rec, s1.airdrop_records = c10State.airdrop_records ++ [rec] ∧ rec.recipient = "u" ∧
        rec.amount = 3 ∧ rec.paid = false) ∧
      (∃ d1, mapGet s1.donors "u" = some d1 ∧
        d1.airdrop_amount = c10Donor.airdrop_amount + 3 ∧
        d1.donation_amount = c10Donor.donation_amount + 2 ∧
        d1.paid = true) :=
  c10_log_airdrop_ignores_paid c10State "adm" 2 0 "u" "" DonationType.Direct 3 c10Donor
    rfl rfl rfl rfl
